import Mathlib

/-!
Shallow embedding of the template-rendering and interface-assignment core of
the Auto-Switch repository (src/models/templates/*.py and
src/models/InterfaceAssignmentManager.py), together with theorems settling
the specification claims about that core.

Conventions of the embedding:
* Python `List[str]` becomes `List String`; `Optional[T]` becomes `Option T`.
* Python `int` fields hold non-negative values in this application (VLAN IDs,
  rates, counters supplied by spin-box widgets), so they are embedded as `Nat`;
  `str(n)` agrees with `toString (n : Nat)` on that domain.
* Python `float` fields (storm-control thresholds) are never computed with,
  only interpolated into strings, so they are embedded by their decimal
  rendering as `String` (e.g. the Python float `80.0` is the string "80.0").
* Python truthiness tests `if self.x:` on `Optional[int]` / `Optional[str]` /
  `List` fields are embedded by the corresponding emptiness/zero tests
  (`None`, `0`, `""` and `[]` are falsy).
* `cfg.append(...)` under an `if` becomes list concatenation of a conditional
  singleton; the concatenation order is exactly the source's append order.
-/

/-- Lines appended only when a boolean condition holds (Python `if b: cfg.append(...)`). -/
def onlyIf (b : Bool) (l : List String) : List String :=
  if b then l else []

/-- Line appended when an `Optional[str]` field is truthy (Python `if self.s: ...`). -/
def ifStr (o : Option String) (f : String → String) : List String :=
  match o with
  | some s => if s = "" then [] else [f s]
  | none => []

/-- Line appended when an `Optional[int]` field is truthy (Python `if self.n: ...`;
`None` and `0` are both falsy). -/
def ifNat (o : Option Nat) (f : Nat → String) : List String :=
  match o with
  | some n => if n = 0 then [] else [f n]
  | none => []

/-- Line appended when a field `is not None` (Python `if self.x is not None: ...`). -/
def ifSome {α : Type} (o : Option α) (f : α → String) : List String :=
  match o with
  | some v => [f v]
  | none => []

/-- A single token of a condensed VLAN range: `"7"` or `"3-5"`. -/
def rangeTok (s e : Nat) : String :=
  if s = e then toString s else toString s ++ "-" ++ toString e

/-- Loop body shared by `TrunkTemplate._format_vlan_range` and
`SwitchTemplate._vlan_list_to_ranges`: extends the running range `[s, e]`
with each further (sorted, deduplicated) VLAN id, emitting a token whenever
a gap is found, and emits the final range after the loop. -/
def rangesAux (s e : Nat) : List Nat → List String
  | [] => [rangeTok s e]
  | v :: rest =>
    if v = e + 1 then rangesAux s v rest
    else rangeTok s e :: rangesAux v v rest

/-- Python `sorted(set(vlan_list))`: the ascending enumeration of the distinct
elements. -/
def sortedSet (l : List Nat) : List Nat :=
  (l.dedup).insertionSort (· ≤ ·)

/-- Strip the leading CLI indentation (space characters) from a rendered line. -/
def dropIndent (s : String) : String :=
  String.mk (s.data.dropWhile (· = ' '))

/-- The fixed prefix of a storm-control level line for one traffic class,
as a character list. -/
def stormPrefix (c : String) : List Char :=
  (" storm-control " ++ c ++ " level ").data

/-- Whether a rendered line is the storm-control level line of the given
traffic class. -/
def isStormLevelLineFor (c : String) (l : String) : Bool :=
  (stormPrefix c).isPrefixOf l.data

/-- Whether a rendered line is a storm-control level line of any of the three
traffic classes. -/
def isStormLevelLine (l : String) : Bool :=
  isStormLevelLineFor "broadcast" l || isStormLevelLineFor "multicast" l
    || isStormLevelLineFor "unknown-unicast" l

/-- A line head is storm-safe when it is prefix-incomparable with every
storm-level prefix; any extension of such a head is not a storm-level line. -/
def safeHead (a : String) : Bool :=
  ["broadcast", "multicast", "unknown-unicast"].all (fun c =>
    !((stormPrefix c).isPrefixOf a.data) && !(a.data.isPrefixOf (stormPrefix c)))

/-- The decimal rendering of a Python float: digits and a dot. -/
def NumStr (s : String) : Bool :=
  s.data.all (fun ch => ch.isDigit || ch = '.')

/-- An optional threshold field is well-formed when absent or numeric. -/
def NumOpt : Option String → Bool
  | none => true
  | some s => NumStr s

/-- Whether a rendered line ends in the `pps` unit token. -/
def endsPps (l : String) : Bool :=
  ("pps").data.isSuffixOf l.data

/-- No line of the list is a storm-control level line. -/
def StormFree (ls : List String) : Prop :=
  ∀ l ∈ ls, isStormLevelLine l = false

namespace Trunk

/-- Trunk encapsulation types (source enum `EncapsulationType`). -/
inductive EncapsulationType
  | DOT1Q
  | ISL
deriving DecidableEq

/-- The `.value` string of the `EncapsulationType` enum. -/
def EncapsulationType.value : EncapsulationType → String
  | .DOT1Q => "dot1q"
  | .ISL => "isl"

/-- Dynamic Trunking Protocol modes (source enum `DTPMode`). -/
inductive DTPMode
  | AUTO
  | DESIRABLE
  | ON
  | NONEGOTIATE
deriving DecidableEq

/-- The `.value` string of the `DTPMode` enum. -/
def DTPMode.value : DTPMode → String
  | .AUTO => "auto"
  | .DESIRABLE => "desirable"
  | .ON => "on"
  | .NONEGOTIATE => "nonegotiate"

/-- EtherChannel modes (source enum `ChannelMode`). -/
inductive ChannelMode
  | ON
  | ACTIVE
  | PASSIVE
  | AUTO
  | DESIRABLE
deriving DecidableEq

/-- The `.value` string of the `ChannelMode` enum. -/
def ChannelMode.value : ChannelMode → String
  | .ON => "on"
  | .ACTIVE => "active"
  | .PASSIVE => "passive"
  | .AUTO => "auto"
  | .DESIRABLE => "desirable"

/-- QoS trust states (source enum `QoSTrustState` of TrunkTemplate.py). -/
inductive QoSTrustState
  | NONE
  | COS
  | DSCP
deriving DecidableEq

/-- The `.value` string of the `QoSTrustState` enum. -/
def QoSTrustState.value : QoSTrustState → String
  | .NONE => "none"
  | .COS => "cos"
  | .DSCP => "dscp"

end Trunk

/-- Field-for-field embedding of the `TrunkTemplate` dataclass. -/
structure TrunkTemplate where
  interfaces : List String := []
  description : Option String := none
  allowed_vlans : List Nat := []
  native_vlan : Nat := 1
  pruning_enabled : Bool := false
  pruning_vlans : List Nat := []
  encapsulation : Trunk.EncapsulationType := .DOT1Q
  dtp_mode : Option Trunk.DTPMode := none
  nonegotiate : Bool := false
  spanning_tree_portfast : Bool := false
  spanning_tree_guard_root : Bool := false
  spanning_tree_guard_loop : Bool := false
  spanning_tree_link_type : Option String := none
  bpdu_filter_enable : Bool := false
  dhcp_snooping_trust : Bool := false
  dhcp_snooping_rate_limit : Option Nat := none
  arp_inspection_trust : Bool := false
  arp_inspection_rate_limit : Option Nat := none
  ip_source_guard : Bool := false
  ipv6_source_guard : Bool := false
  ipv6_ra_guard : Bool := false
  qos_trust : Option Trunk.QoSTrustState := none
  priority_queue_out : Bool := false
  service_policy_input : Option String := none
  service_policy_output : Option String := none
  shape_average : Option Nat := none
  police_rate : Option Nat := none
  police_burst : Option Nat := none
  storm_control_broadcast_min : Option String := none
  storm_control_broadcast_max : Option String := none
  storm_control_multicast_min : Option String := none
  storm_control_multicast_max : Option String := none
  storm_control_unknown_unicast_min : Option String := none
  storm_control_unknown_unicast_max : Option String := none
  storm_control_unit_pps : Bool := false
  storm_control_action : Option String := none
  speed : String := "auto"
  duplex : String := "auto"
  auto_mdix : Bool := false
  flow_control_receive : Bool := false
  flow_control_send : Bool := false
  energy_efficient_ethernet : Bool := false
  errdisable_timeout : Option Nat := none
  errdisable_recovery_cause : List String := []
  channel_group : Option Nat := none
  channel_group_mode : Option Trunk.ChannelMode := none
  channel_protocol : Option String := none
  lacp_port_priority : Option Nat := none
  lacp_rate : Option String := none
  cdp_enabled : Bool := true
  lldp_transmit : Bool := true
  lldp_receive : Bool := true
  port_channel_load_balance : Option String := none
  load_interval : Nat := 300
  udld_enable : Bool := false
  udld_aggressive : Bool := false

namespace TrunkTemplate

/-- `TrunkTemplate._fmt_storm_line`: format one storm-control command line, or
`none` when the minimum threshold is unset. -/
def _fmt_storm_line (t : TrunkTemplate) (traffic : String)
    (mn mx : Option String) : Option String :=
  match mn with
  | none => none
  | some m =>
    let unit := if t.storm_control_unit_pps then " pps" else ""
    let line := " storm-control " ++ traffic ++ " level " ++ m
    let line := match mx with
      | some x => line ++ " " ++ x
      | none => line
    some (line ++ unit)

/-- `TrunkTemplate._format_vlan_range`: condensed range rendering of a VLAN id
list; the empty list defaults to "1-4094" (all VLANs). -/
def _format_vlan_range (vlan_list : List Nat) : String :=
  if vlan_list = [] then "1-4094"
  else
    match sortedSet vlan_list with
    | [] => ""
    | v :: rest => String.intercalate "," (rangesAux v v rest)

/-- Lines of the trunk storm-control section (the three `_fmt_storm_line`
results in broadcast, multicast, unknown-unicast order, skipping `none`s). -/
def stormBlock (t : TrunkTemplate) : List String :=
  (t._fmt_storm_line "broadcast" t.storm_control_broadcast_min t.storm_control_broadcast_max).toList
  ++ (t._fmt_storm_line "multicast" t.storm_control_multicast_min t.storm_control_multicast_max).toList
  ++ (t._fmt_storm_line "unknown-unicast" t.storm_control_unknown_unicast_min t.storm_control_unknown_unicast_max).toList

/-- Lines of the trunk EtherChannel section (all nested under
`if self.channel_group:`, where `0` means disabled). -/
def channelBlock (t : TrunkTemplate) : List String :=
  match t.channel_group with
  | none => []
  | some g =>
    if g = 0 then []
    else
      [" channel-group " ++ toString g ++
        (match t.channel_group_mode with
         | some m => " mode " ++ m.value
         | none => "")]
      ++ ifStr t.channel_protocol (fun p => " channel-protocol " ++ p)
      ++ ifNat t.lacp_port_priority (fun p => " lacp port-priority " ++ toString p)
      ++ ifStr t.lacp_rate (fun r => " lacp rate " ++ r)
      ++ ifStr t.port_channel_load_balance (fun b => " port-channel load-balance " ++ b)

/-- Interface range header, trunk mode/VLAN lines, description,
encapsulation, DTP and pruning (source lines 186-215). -/
def headBlock (t : TrunkTemplate) : List String :=
  ["interface range " ++ String.intercalate "," t.interfaces,
   " switchport mode trunk",
   " switchport trunk native vlan " ++ toString t.native_vlan,
   " switchport trunk allowed vlan " ++ _format_vlan_range t.allowed_vlans]
  ++ ifStr t.description (fun d => " description " ++ d)
  ++ [if t.encapsulation = .ISL then " switchport trunk encapsulation isl"
      else " switchport trunk encapsulation dot1q"]
  ++ (match t.dtp_mode with
      | some m => if t.nonegotiate then [] else [" switchport mode " ++ m.value]
      | none => [])
  ++ onlyIf t.nonegotiate [" switchport nonegotiate"]
  ++ onlyIf t.pruning_enabled
      [" switchport trunk pruning vlan " ++ _format_vlan_range t.pruning_vlans]

/-- Spanning-tree block (source lines 217-231). -/
def stpBlock (t : TrunkTemplate) : List String :=
  onlyIf t.spanning_tree_portfast [" spanning-tree portfast trunk"]
  ++ onlyIf t.spanning_tree_guard_root [" spanning-tree guard root"]
  ++ onlyIf t.spanning_tree_guard_loop [" spanning-tree guard loop"]
  ++ ifStr t.spanning_tree_link_type (fun s => " spanning-tree link-type " ++ s)
  ++ onlyIf t.bpdu_filter_enable [" spanning-tree bpdufilter enable"]

/-- Security block (source lines 233-253). -/
def secBlock (t : TrunkTemplate) : List String :=
  onlyIf t.dhcp_snooping_trust [" ip dhcp snooping trust"]
  ++ ifNat t.dhcp_snooping_rate_limit (fun n => " ip dhcp snooping limit rate " ++ toString n)
  ++ onlyIf t.arp_inspection_trust [" ip arp inspection trust"]
  ++ ifNat t.arp_inspection_rate_limit (fun n => " ip arp inspection limit rate " ++ toString n)
  ++ onlyIf t.ip_source_guard [" ip verify source"]
  ++ onlyIf t.ipv6_source_guard [" ipv6 verify source"]
  ++ onlyIf t.ipv6_ra_guard [" ipv6 ra guard"]

/-- QoS block (source lines 255-275). -/
def qosBlock (t : TrunkTemplate) : List String :=
  (match t.qos_trust with
   | some q => if q = .NONE then [] else [" mls qos trust " ++ q.value]
   | none => [])
  ++ onlyIf t.priority_queue_out [" priority-queue out"]
  ++ ifStr t.service_policy_input (fun s => " service-policy input " ++ s)
  ++ ifStr t.service_policy_output (fun s => " service-policy output " ++ s)
  ++ ifNat t.shape_average (fun n => " shape average " ++ toString n)
  ++ (match t.police_rate with
      | some r =>
        if r = 0 then []
        else
          match t.police_burst with
          | some b =>
            if b = 0 then [" police " ++ toString r]
            else [" police " ++ toString r ++ " " ++ toString b]
          | none => [" police " ++ toString r]
      | none => [])

/-- Layer-1 and flow-control block (source lines 290-308). -/
def physBlock (t : TrunkTemplate) : List String :=
  onlyIf (t.speed ≠ "auto") [" speed " ++ t.speed]
  ++ onlyIf (t.duplex ≠ "auto") [" duplex " ++ t.duplex]
  ++ onlyIf t.auto_mdix [" mdix auto"]
  ++ onlyIf t.energy_efficient_ethernet [" power efficient-ethernet auto"]
  ++ onlyIf t.flow_control_receive [" flowcontrol receive on"]
  ++ onlyIf t.flow_control_send [" flowcontrol send on"]

/-- Error-recovery block (source lines 310-315). -/
def errBlock (t : TrunkTemplate) : List String :=
  ifNat t.errdisable_timeout (fun n => " errdisable timeout " ++ toString n)
  ++ t.errdisable_recovery_cause.map (fun c => " errdisable recovery cause " ++ c)

/-- CDP/LLDP, load-interval and UDLD block (source lines 334-353). -/
def tailBlock (t : TrunkTemplate) : List String :=
  onlyIf (!t.cdp_enabled) [" no cdp enable"]
  ++ onlyIf (!t.lldp_transmit) [" no lldp transmit"]
  ++ onlyIf (!t.lldp_receive) [" no lldp receive"]
  ++ onlyIf (t.load_interval ≠ 300) [" load-interval " ++ toString t.load_interval]
  ++ onlyIf t.udld_enable
      [if t.udld_aggressive then " udld port aggressive" else " udld port"]

/-- `TrunkTemplate.generate_config`: the IOS CLI lines for the trunk template,
the blocks concatenated in the exact emission order of the source. -/
def generate_config (t : TrunkTemplate) : List String :=
  if t.interfaces = [] then []
  else
    t.headBlock ++ t.stpBlock ++ t.secBlock ++ t.qosBlock
    ++ t.stormBlock
    ++ ifStr t.storm_control_action (fun a => " storm-control action " ++ a)
    ++ t.physBlock ++ t.errBlock ++ t.channelBlock ++ t.tailBlock
    ++ [" exit"]

end TrunkTemplate

namespace Access

/-- PoE modes (source enum `PowerInlineMode`). -/
inductive PowerInlineMode
  | AUTO
  | STATIC
  | NEVER
  | MAXIMUM
  | PERPETUAL
deriving DecidableEq

/-- The `.value` string of the `PowerInlineMode` enum. -/
def PowerInlineMode.value : PowerInlineMode → String
  | .AUTO => "auto"
  | .STATIC => "static"
  | .NEVER => "never"
  | .MAXIMUM => "maximum"
  | .PERPETUAL => "perpetual-poe"

/-- Port-security violation actions (source enum `ViolationAction`). -/
inductive ViolationAction
  | SHUTDOWN
  | RESTRICT
  | PROTECT
deriving DecidableEq

/-- The `.value` string of the `ViolationAction` enum. -/
def ViolationAction.value : ViolationAction → String
  | .SHUTDOWN => "shutdown"
  | .RESTRICT => "restrict"
  | .PROTECT => "protect"

/-- QoS trust states (source enum `QoSTrustState` of AccessTemplate.py). -/
inductive QoSTrustState
  | NONE
  | COS
  | DSCP
deriving DecidableEq

/-- The `.value` string of the `QoSTrustState` enum. -/
def QoSTrustState.value : QoSTrustState → String
  | .NONE => "none"
  | .COS => "cos"
  | .DSCP => "dscp"

end Access

/-- Field-for-field embedding of the `AccessTemplate` dataclass, in source
field order with the source defaults. -/
structure AccessTemplate where
  interfaces : List String := []
  vlan_id : Nat := 1
  description : Option String := none
  color : Option String := none
  speed : String := "auto"
  duplex : String := "auto"
  auto_mdix : Bool := false
  energy_efficient_ethernet : Bool := false
  port_security_enabled : Bool := false
  max_mac_addresses : Nat := 1
  violation_action : Access.ViolationAction := .SHUTDOWN
  sticky_mac : Bool := false
  restricted_mac_addresses : List String := []
  voice_vlan : Option Nat := none
  voice_vlan_dot1p : Bool := false
  voice_vlan_none : Bool := false
  spanning_tree_portfast : Bool := true
  spanning_tree_portfast_trunk : Bool := false
  bpdu_guard : Bool := false
  bpdu_filter : Bool := false
  loop_guard : Bool := false
  root_guard : Bool := false
  spanning_tree_link_type : Option String := none
  qos_trust : Option Access.QoSTrustState := none
  service_policy_input : Option String := none
  service_policy_output : Option String := none
  qos_cos_override : Option Nat := none
  qos_dscp_override : Option Nat := none
  priority_queue_out : Bool := false
  shape_average : Option Nat := none
  police_rate : Option Nat := none
  police_burst : Option Nat := none
  authentication_host_mode : String := "single-host"
  authentication_open : Bool := false
  authentication_order : List String := ["dot1x", "mab"]
  authentication_priority : List String := ["dot1x", "mab"]
  authentication_periodic : Bool := false
  authentication_timer_reauthenticate : Nat := 3600
  mab : Bool := false
  dot1x : Bool := false
  dot1x_timeout_quiet_period : Nat := 60
  dot1x_timeout_tx_period : Nat := 30
  dot1x_max_req : Nat := 2
  webauth : Bool := false
  webauth_local : Bool := true
  authentication_control_direction : String := "both"
  authentication_fallback : Option String := none
  authentication_violation : String := "restrict"
  poe_enabled : Bool := true
  poe_inline : Access.PowerInlineMode := .AUTO
  poe_priority : String := "low"
  poe_limit : Option Nat := none
  storm_control_broadcast_min : Option String := none
  storm_control_broadcast_max : Option String := none
  storm_control_multicast_min : Option String := none
  storm_control_multicast_max : Option String := none
  storm_control_unknown_unicast_min : Option String := none
  storm_control_unknown_unicast_max : Option String := none
  storm_control_unit_pps : Bool := false
  storm_control_action : Option String := none
  private_vlan_host : Bool := false
  private_vlan_mapping : Option String := none
  protected_port : Bool := false
  no_neighbor : Bool := false
  cdp_enabled : Bool := true
  lldp_transmit : Bool := true
  lldp_receive : Bool := true
  errdisable_timeout : Option Nat := none
  errdisable_recovery_cause : List String := []
  dhcp_snoop_rate : Option Nat := none
  dhcp_snoop_trust : Bool := false
  arp_inspection_rate : Option Nat := none
  arp_inspection_trust : Bool := false
  ip_source_guard : Bool := false
  udld_enable : Bool := false
  udld_aggressive : Bool := false
  flow_control_receive : Bool := false
  flow_control_send : Bool := false
  load_interval : Nat := 300
  device_tracking : Bool := false
  ip_dhcp_relay_information : Bool := false
  ipv6_nd_inspection : Bool := false
  ipv6_ra_guard : Bool := false

namespace AccessTemplate

/-- `AccessTemplate._fmt_storm_line`: one storm-control CLI line, or `none`
when the class's minimum threshold is unset. -/
def _fmt_storm_line (t : AccessTemplate) (traffic_type : String)
    (mn mx : Option String) : Option String :=
  match mn with
  | none => none
  | some m =>
    let unit := if t.storm_control_unit_pps then "pps" else ""
    let line := " storm-control " ++ traffic_type ++ " level " ++ m
    let line := match mx with
      | some x => line ++ " " ++ x
      | none => line
    some (if unit ≠ "" then line ++ " " ++ unit else line)

/-- VLAN definition block (lines 197-201 of the source method). -/
def vlanBlock (t : AccessTemplate) : List String :=
  ["vlan " ++ toString t.vlan_id]
  ++ ifStr t.description (fun d => " name " ++ d)
  ++ [" exit"]

/-- Interface range header, mode and VLAN assignment (lines 203-210). -/
def headerBlock (t : AccessTemplate) : List String :=
  ["interface range " ++ String.intercalate "," t.interfaces,
   " switchport mode access",
   " switchport access vlan " ++ toString t.vlan_id]
  ++ ifStr t.description (fun d => " description " ++ d)

/-- Voice-VLAN block (lines 212-218). -/
def voiceBlock (t : AccessTemplate) : List String :=
  if t.voice_vlan_none then [" switchport voice vlan none"]
  else if t.voice_vlan_dot1p then [" switchport voice vlan dot1p"]
  else ifNat t.voice_vlan (fun v => " switchport voice vlan " ++ toString v)

/-- Private-VLAN / protected-port block (lines 220-226). -/
def pvlanBlock (t : AccessTemplate) : List String :=
  onlyIf t.private_vlan_host [" switchport private-vlan host"]
  ++ ifStr t.private_vlan_mapping (fun m => " switchport private-vlan mapping " ++ m)
  ++ onlyIf (t.protected_port || t.no_neighbor) [" switchport protected"]

/-- Spanning-tree features block (lines 228-245). -/
def stpBlock (t : AccessTemplate) : List String :=
  onlyIf t.spanning_tree_portfast
    [if t.spanning_tree_portfast_trunk then " spanning-tree portfast trunk"
     else " spanning-tree portfast"]
  ++ onlyIf t.bpdu_guard [" spanning-tree bpduguard enable"]
  ++ onlyIf t.bpdu_filter [" spanning-tree bpdufilter enable"]
  ++ onlyIf t.loop_guard [" spanning-tree guard loop"]
  ++ onlyIf t.root_guard [" spanning-tree guard root"]
  ++ ifStr t.spanning_tree_link_type (fun s => " spanning-tree link-type " ++ s)

/-- QoS / NAC block (lines 247-273). -/
def qosBlock (t : AccessTemplate) : List String :=
  (match t.qos_trust with
   | some q => if q = .NONE then [] else [" mls qos trust " ++ q.value]
   | none => [])
  ++ ifSome t.qos_cos_override (fun n => " mls qos cos " ++ toString n)
  ++ ifSome t.qos_dscp_override (fun n => " mls qos dscp " ++ toString n)
  ++ ifStr t.service_policy_input (fun s => " service-policy input " ++ s)
  ++ ifStr t.service_policy_output (fun s => " service-policy output " ++ s)
  ++ onlyIf t.priority_queue_out [" priority-queue out"]
  ++ ifNat t.shape_average (fun n => " shape average " ++ toString n)
  ++ (match t.police_rate with
      | some r =>
        if r = 0 then []
        else
          match t.police_burst with
          | some b =>
            if b = 0 then [" police " ++ toString r]
            else [" police " ++ toString r ++ " " ++ toString b]
          | none => [" police " ++ toString r]
      | none => [])

/-- 802.1X authentication block (lines 275-303; the source computes the
port-control mode as "auto" in both branches of its conditional). -/
def authBlock (t : AccessTemplate) : List String :=
  onlyIf t.dot1x
    ([" authentication port-control auto",
      " authentication host-mode " ++ t.authentication_host_mode]
     ++ onlyIf t.authentication_open [" authentication open"]
     ++ onlyIf (t.authentication_order ≠ [])
         [" authentication order " ++ String.intercalate " " t.authentication_order]
     ++ onlyIf (t.authentication_priority ≠ [])
         [" authentication priority " ++ String.intercalate " " t.authentication_priority]
     ++ onlyIf t.authentication_periodic
         [" authentication periodic",
          " authentication timer reauthenticate " ++ toString t.authentication_timer_reauthenticate]
     ++ [" authentication control-direction " ++ t.authentication_control_direction,
         " authentication violation " ++ t.authentication_violation]
     ++ ifStr t.authentication_fallback (fun f => " authentication fallback " ++ f)
     ++ [" dot1x timeout quiet-period " ++ toString t.dot1x_timeout_quiet_period,
         " dot1x timeout tx-period " ++ toString t.dot1x_timeout_tx_period,
         " dot1x max-req " ++ toString t.dot1x_max_req])

/-- PoE block (lines 314-322). -/
def poeBlock (t : AccessTemplate) : List String :=
  if !t.poe_enabled then [" power inline never"]
  else
    [" power inline " ++ t.poe_inline.value,
     " power inline priority " ++ t.poe_priority]
    ++ ifNat t.poe_limit (fun n => " power inline max " ++ toString n)

/-- Storm-control lines (lines 324-332): the three `_fmt_storm_line` results
in broadcast, multicast, unknown-unicast order, skipping `none`s. -/
def stormBlock (t : AccessTemplate) : List String :=
  (t._fmt_storm_line "broadcast" t.storm_control_broadcast_min t.storm_control_broadcast_max).toList
  ++ (t._fmt_storm_line "multicast" t.storm_control_multicast_min t.storm_control_multicast_max).toList
  ++ (t._fmt_storm_line "unknown-unicast" t.storm_control_unknown_unicast_min t.storm_control_unknown_unicast_max).toList

/-- Physical layer block (lines 337-346). -/
def physBlock (t : AccessTemplate) : List String :=
  onlyIf (t.speed ≠ "auto") [" speed " ++ t.speed]
  ++ onlyIf (t.duplex ≠ "auto") [" duplex " ++ t.duplex]
  ++ onlyIf t.auto_mdix [" mdix auto"]
  ++ onlyIf t.energy_efficient_ethernet [" power efficient-ethernet auto"]

/-- Flow control block (lines 348-352). -/
def flowBlock (t : AccessTemplate) : List String :=
  onlyIf t.flow_control_receive [" flowcontrol receive on"]
  ++ onlyIf t.flow_control_send [" flowcontrol send on"]

/-- CDP/LLDP negation block (lines 354-362). -/
def cdpLldpBlock (t : AccessTemplate) : List String :=
  onlyIf (!t.cdp_enabled) [" no cdp enable"]
  ++ onlyIf (!t.lldp_transmit) [" no lldp transmit"]
  ++ onlyIf (!t.lldp_receive) [" no lldp receive"]

/-- UDLD block (lines 368-373). -/
def udldBlock (t : AccessTemplate) : List String :=
  onlyIf t.udld_enable
    [if t.udld_aggressive then " udld port aggressive" else " udld port"]

/-- Errdisable block (lines 375-380). -/
def errdisableBlock (t : AccessTemplate) : List String :=
  ifNat t.errdisable_timeout (fun n => " errdisable timeout " ++ toString n)
  ++ t.errdisable_recovery_cause.map (fun c => " errdisable recovery cause " ++ c)

/-- DHCP snooping / ARP inspection / source-guard block (lines 382-399). -/
def snoopBlock (t : AccessTemplate) : List String :=
  ifNat t.dhcp_snoop_rate (fun n => " ip dhcp snooping limit rate " ++ toString n)
  ++ onlyIf t.dhcp_snoop_trust [" ip dhcp snooping trust"]
  ++ onlyIf t.ip_dhcp_relay_information [" ip dhcp relay information trusted"]
  ++ ifNat t.arp_inspection_rate (fun n => " ip arp inspection limit rate " ++ toString n)
  ++ onlyIf t.arp_inspection_trust [" ip arp inspection trust"]
  ++ onlyIf t.ip_source_guard [" ip verify source"]

/-- IPv6 security and device-tracking block (lines 401-409). -/
def ipv6Block (t : AccessTemplate) : List String :=
  onlyIf t.ipv6_nd_inspection [" ipv6 nd inspection"]
  ++ onlyIf t.ipv6_ra_guard [" ipv6 ra guard"]
  ++ onlyIf t.device_tracking [" device-tracking"]

/-- Port-security block (lines 411-421). -/
def portSecBlock (t : AccessTemplate) : List String :=
  onlyIf t.port_security_enabled
    ([" switchport port-security",
      " switchport port-security maximum " ++ toString t.max_mac_addresses,
      " switchport port-security violation " ++ t.violation_action.value]
     ++ onlyIf t.sticky_mac [" switchport port-security mac-address sticky"]
     ++ t.restricted_mac_addresses.map
         (fun m => " switchport port-security mac-address " ++ m))

/-- `AccessTemplate.generate_config`: the IOS CLI lines for the access
template, the blocks concatenated in the exact emission order of the source. -/
def generate_config (t : AccessTemplate) : List String :=
  if t.interfaces = [] then []
  else
    t.vlanBlock ++ t.headerBlock ++ t.voiceBlock ++ t.pvlanBlock ++ t.stpBlock
    ++ t.qosBlock ++ t.authBlock
    ++ onlyIf t.mab [" mab"]
    ++ onlyIf t.webauth
        [if t.webauth_local then " web-auth" else " web-auth authentication-list default"]
    ++ t.poeBlock ++ t.stormBlock
    ++ ifStr t.storm_control_action (fun a => " storm-control action " ++ a)
    ++ t.physBlock ++ t.flowBlock ++ t.cdpLldpBlock
    ++ onlyIf (t.load_interval ≠ 300) [" load-interval " ++ toString t.load_interval]
    ++ t.udldBlock ++ t.errdisableBlock ++ t.snoopBlock ++ t.ipv6Block
    ++ t.portSecBlock
    ++ [" exit"]

end AccessTemplate

namespace Switch

/-- Supported spanning-tree modes (source enum `SpanningTreeMode`). -/
inductive SpanningTreeMode
  | PVST
  | RAPID_PVST
  | MST
deriving DecidableEq

/-- The `.value` string of the `SpanningTreeMode` enum. -/
def SpanningTreeMode.value : SpanningTreeMode → String
  | .PVST => "pvst"
  | .RAPID_PVST => "rapid-pvst"
  | .MST => "mst"

/-- Supported VTP modes (source enum `VTPMode`). -/
inductive VTPMode
  | OFF
  | SERVER
  | CLIENT
  | TRANSPARENT
deriving DecidableEq

/-- The `.value` string of the `VTPMode` enum. -/
def VTPMode.value : VTPMode → String
  | .OFF => "off"
  | .SERVER => "server"
  | .CLIENT => "client"
  | .TRANSPARENT => "transparent"

/-- UDLD operating modes (source enum `UDLDMode`). -/
inductive UDLDMode
  | DISABLED
  | NORMAL
  | AGGRESSIVE
deriving DecidableEq

/-- The `.value` string of the `UDLDMode` enum. -/
def UDLDMode.value : UDLDMode → String
  | .DISABLED => "disabled"
  | .NORMAL => "normal"
  | .AGGRESSIVE => "aggressive"

/-- Syslog severity levels (source enum `LoggingLevel`). -/
inductive LoggingLevel
  | EMERGENCIES
  | ALERTS
  | CRITICAL
  | ERRORS
  | WARNINGS
  | NOTIFICATIONS
  | INFORMATIONAL
  | DEBUGGING
deriving DecidableEq

/-- The `.value` string of the `LoggingLevel` enum. -/
def LoggingLevel.value : LoggingLevel → String
  | .EMERGENCIES => "emergencies"
  | .ALERTS => "alerts"
  | .CRITICAL => "critical"
  | .ERRORS => "errors"
  | .WARNINGS => "warnings"
  | .NOTIFICATIONS => "notifications"
  | .INFORMATIONAL => "informational"
  | .DEBUGGING => "debugging"

/-- QoS trust states (source enum `QoSTrustState` of SwitchTemplate.py). -/
inductive QoSTrustState
  | NONE
  | COS
  | DSCP
deriving DecidableEq

/-- The `.value` string of the `QoSTrustState` enum. -/
def QoSTrustState.value : QoSTrustState → String
  | .NONE => "none"
  | .COS => "cos"
  | .DSCP => "dscp"

/-- VLAN properties (source dataclass `VLAN`). -/
structure VLAN where
  id : Nat
  name : Option String := none
  state : String := "active"

/-- QoS queue configuration (source dataclass `QoSQueue`). -/
structure QoSQueue where
  queue_id : Nat
  priority : Nat := 0
  bandwidth : Nat := 0

/-- MST instance configuration (source dataclass `MSTPInstance`). -/
structure MSTPInstance where
  instance_id : Nat
  priority : Nat := 32768
  vlans : List Nat := []

end Switch

/-- Field-for-field embedding of the `SwitchTemplate` dataclass.  The Python
`Dict[int, int]` QoS maps are embedded as association lists in insertion
order (matching `dict.items()` iteration); the float
`storm_control_default_threshold` is embedded by its decimal rendering. -/
structure SwitchTemplate where
  hostname : String := "Switch"
  domain_name : String := "local"
  manager_vlan_id : Nat := 1
  manager_ip : String := "192.168.1.1 255.255.255.0"
  default_gateway : String := "192.168.1.254"
  enable_cdp : Bool := true
  enable_lldp : Bool := false
  vlans : List Switch.VLAN := [{ id := 1, name := some "default" }]
  vtp_mode : Switch.VTPMode := .OFF
  vtp_domain : Option String := none
  vtp_password : Option String := none
  spanning_tree_mode : Switch.SpanningTreeMode := .RAPID_PVST
  spanning_tree_priority : Nat := 32768
  bpduguard_default : Bool := false
  bpdufilter_default : Bool := false
  loopguard_default : Bool := false
  rootguard_default : Bool := false
  spanning_tree_hello_time : Nat := 2
  spanning_tree_forward_time : Nat := 15
  spanning_tree_max_age : Nat := 20
  mst_config_name : Option String := none
  mst_config_revision : Nat := 0
  mst_instances : List Switch.MSTPInstance := []
  dhcp_snoop_enabled : Bool := false
  dhcp_snoop_vlans : List Nat := []
  dhcp_option82_enabled : Bool := false
  arp_inspection_enabled : Bool := false
  arp_inspection_vlans : List Nat := []
  ip_source_guard_default : Bool := false
  port_security_default_violation : String := "shutdown"
  storm_control_default_enabled : Bool := false
  storm_control_default_threshold : String := "80.0"
  storm_control_default_unit_pps : Bool := false
  qos_enabled : Bool := false
  qos_trust_default : Option Switch.QoSTrustState := none
  auto_qos_enabled : Bool := false
  qos_dscp_map : List (Nat × Nat) := []
  qos_cos_map : List (Nat × Nat) := []
  qos_queues : List Switch.QoSQueue := []
  logging_enabled : Bool := true
  logging_host : Option String := none
  logging_level : Switch.LoggingLevel := .NOTIFICATIONS
  logging_buffer_size : Nat := 4096
  snmp_enabled : Bool := false
  snmp_community_ro : String := "public"
  snmp_community_rw : Option String := none
  snmp_location : Option String := none
  snmp_contact : Option String := none
  snmp_traps_enabled : Bool := false
  span_enabled : Bool := false
  span_source_ports : List String := []
  span_destination_port : Option String := none
  netflow_enabled : Bool := false
  netflow_collector : Option String := none
  udld_mode : Switch.UDLDMode := .DISABLED
  igmp_snooping_enabled : Bool := true
  mld_snooping_enabled : Bool := false
  mac_address_table_aging_time : Nat := 300
  jumbo_frames_enabled : Bool := false
  system_mtu : Nat := 1500
  enable_ssh : Bool := false
  enable_secret : Bool := false
  aaa_new_model : Bool := false
  aaa_authentication_enabled : Bool := false
  aaa_authorization_enabled : Bool := false
  aaa_accounting_enabled : Bool := false
  radius_server : Option String := none
  radius_key : Option String := none
  tacacs_server : Option String := none
  tacacs_key : Option String := none
  poe_power_budget : Nat := 0
  energy_efficient_ethernet : Bool := false
  monitoring_enabled : Bool := false
  errdisable_recovery_interval : Nat := 300

namespace SwitchTemplate

/-- `SwitchTemplate._vlan_list_to_ranges`: condensed range tokens of a VLAN id
list; the empty list yields the empty token list. -/
def _vlan_list_to_ranges (vlan_list : List Nat) : List String :=
  if vlan_list = [] then []
  else
    match sortedSet vlan_list with
    | [] => []
    | v :: rest => rangesAux v v rest

/-- MST configuration block (lines 307-322 of the source method). -/
def mstBlock (s : SwitchTemplate) : List String :=
  if s.spanning_tree_mode = .MST then
    match s.mst_config_name with
    | some n =>
      if n = "" then []
      else
        ["spanning-tree mst configuration",
         " name " ++ n,
         " revision " ++ toString s.mst_config_revision]
        ++ s.mst_instances.flatMap (fun i =>
            (_vlan_list_to_ranges i.vlans).map (fun r =>
              " instance " ++ toString i.instance_id ++ " vlan " ++ r))
        ++ [" exit"]
        ++ s.mst_instances.flatMap (fun i =>
            onlyIf (i.priority ≠ 32768)
              ["spanning-tree mst " ++ toString i.instance_id ++ " priority " ++ toString i.priority])
    | none => []
  else []

/-- Device-wide preamble: every line `generate_config` emits before the child
templates (source lines 244-488), in the exact emission order. -/
def devicePreamble (s : SwitchTemplate) : List String :=
  ["enable", "configure terminal", "hostname " ++ s.hostname]
  ++ onlyIf (s.domain_name ≠ "") ["ip domain-name " ++ s.domain_name]
  ++ [if s.enable_cdp then "cdp run" else "no cdp run"]
  ++ [if s.enable_lldp then "lldp run" else "no lldp run"]
  ++ s.vlans.flatMap (fun v =>
      ["vlan " ++ toString v.id]
      ++ ifStr v.name (fun n => " name " ++ n)
      ++ onlyIf (v.state ≠ "active") [" state " ++ v.state]
      ++ [" exit"])
  ++ (if s.vtp_mode = .OFF then []
      else
        ["vtp mode " ++ s.vtp_mode.value]
        ++ ifStr s.vtp_domain (fun d => "vtp domain " ++ d)
        ++ ifStr s.vtp_password (fun p => "vtp password " ++ p))
  ++ ["spanning-tree mode " ++ s.spanning_tree_mode.value]
  ++ onlyIf (s.spanning_tree_priority ≠ 32768)
      ["spanning-tree vlan 1-4094 priority " ++ toString s.spanning_tree_priority]
  ++ onlyIf (s.spanning_tree_hello_time ≠ 2)
      ["spanning-tree vlan 1-4094 hello-time " ++ toString s.spanning_tree_hello_time]
  ++ onlyIf (s.spanning_tree_forward_time ≠ 15)
      ["spanning-tree vlan 1-4094 forward-time " ++ toString s.spanning_tree_forward_time]
  ++ onlyIf (s.spanning_tree_max_age ≠ 20)
      ["spanning-tree vlan 1-4094 max-age " ++ toString s.spanning_tree_max_age]
  ++ onlyIf s.bpduguard_default ["spanning-tree portfast bpduguard default"]
  ++ onlyIf s.bpdufilter_default ["spanning-tree portfast bpdufilter default"]
  ++ onlyIf s.loopguard_default ["spanning-tree loopguard default"]
  ++ s.mstBlock
  ++ onlyIf s.dhcp_snoop_enabled
      (["ip dhcp snooping"]
       ++ (if s.dhcp_snoop_vlans ≠ [] then
             (_vlan_list_to_ranges s.dhcp_snoop_vlans).map
               (fun r => "ip dhcp snooping vlan " ++ r)
           else ["ip dhcp snooping vlan 1-4094"])
       ++ onlyIf s.dhcp_option82_enabled ["ip dhcp snooping information option"])
  ++ onlyIf s.arp_inspection_enabled
      (["ip arp inspection"]
       ++ (if s.arp_inspection_vlans ≠ [] then
             (_vlan_list_to_ranges s.arp_inspection_vlans).map
               (fun r => "ip arp inspection vlan " ++ r)
           else ["ip arp inspection vlan 1-4094"]))
  ++ onlyIf s.storm_control_default_enabled
      (let unit := if s.storm_control_default_unit_pps then " pps" else ""
       ["storm-control broadcast level " ++ s.storm_control_default_threshold ++ unit,
        "storm-control multicast level " ++ s.storm_control_default_threshold ++ unit,
        "storm-control unicast level " ++ s.storm_control_default_threshold ++ unit])
  ++ onlyIf s.qos_enabled
      (["mls qos"]
       ++ (match s.qos_trust_default with
           | some q => ["mls qos trust " ++ q.value]
           | none => [])
       ++ s.qos_dscp_map.map (fun p =>
           "mls qos map dscp " ++ toString p.1 ++ " to dscp " ++ toString p.2)
       ++ s.qos_cos_map.map (fun p =>
           "mls qos map cos " ++ toString p.1 ++ " to dscp " ++ toString p.2)
       ++ onlyIf (s.qos_queues.any (fun q => q.priority > 0)) ["priority-queue out"]
       ++ onlyIf (s.qos_queues.any (fun q => q.bandwidth > 0))
           ["wrr-queue bandwidth " ++
             String.intercalate " " (s.qos_queues.map (fun q => toString q.bandwidth))])
  ++ onlyIf s.logging_enabled
      (["logging buffered " ++ toString s.logging_buffer_size,
        "logging console " ++ s.logging_level.value]
       ++ (match s.logging_host with
           | some h =>
             if h = "" then []
             else ["logging host " ++ h, "logging trap " ++ s.logging_level.value]
           | none => []))
  ++ onlyIf s.snmp_enabled
      (["snmp-server community " ++ s.snmp_community_ro ++ " RO"]
       ++ ifStr s.snmp_community_rw (fun c => "snmp-server community " ++ c ++ " RW")
       ++ ifStr s.snmp_location (fun l => "snmp-server location " ++ l)
       ++ ifStr s.snmp_contact (fun c => "snmp-server contact " ++ c)
       ++ onlyIf s.snmp_traps_enabled ["snmp-server enable traps"])
  ++ (if s.span_enabled ∧ s.span_source_ports ≠ [] then
        match s.span_destination_port with
        | some d =>
          if d = "" then []
          else
            ["monitor session 1 source interface " ++ String.intercalate ", " s.span_source_ports,
             "monitor session 1 destination interface " ++ d]
        | none => []
      else [])
  ++ (if s.netflow_enabled then
        match s.netflow_collector with
        | some c =>
          if c = "" then []
          else ["ip flow-export version 9", "ip flow-export destination " ++ c]
        | none => []
      else [])
  ++ onlyIf (s.udld_mode ≠ .DISABLED) ["udld " ++ s.udld_mode.value]
  ++ onlyIf (!s.igmp_snooping_enabled) ["no ip igmp snooping"]
  ++ onlyIf s.mld_snooping_enabled ["ipv6 mld snooping"]
  ++ onlyIf (s.mac_address_table_aging_time ≠ 300)
      ["mac address-table aging-time " ++ toString s.mac_address_table_aging_time]
  ++ onlyIf s.jumbo_frames_enabled ["system mtu " ++ toString s.system_mtu]
  ++ onlyIf s.enable_ssh ["crypto key generate rsa modulus 2048", "ip ssh version 2"]
  ++ onlyIf s.enable_secret ["enable secret 0 Cisco123"]
  ++ onlyIf s.aaa_new_model
      (["aaa new-model"]
       ++ onlyIf s.aaa_authentication_enabled ["aaa authentication login default local"]
       ++ onlyIf s.aaa_authorization_enabled ["aaa authorization exec default local"]
       ++ onlyIf s.aaa_accounting_enabled
           ["aaa accounting exec default start-stop group tacacs+"])
  ++ (match s.radius_server with
      | some srv =>
        if srv = "" then []
        else
          ["radius server main",
           " address ipv4 " ++ srv ++ " auth-port 1812 acct-port 1813"]
          ++ ifStr s.radius_key (fun k => " key " ++ k)
      | none => [])
  ++ (match s.tacacs_server with
      | some srv =>
        if srv = "" then []
        else
          ["tacacs server main", " address ipv4 " ++ srv]
          ++ ifStr s.tacacs_key (fun k => " key " ++ k)
      | none => [])
  ++ onlyIf s.energy_efficient_ethernet ["power efficient-ethernet auto"]
  ++ onlyIf s.monitoring_enabled
      ["errdisable recovery cause all",
       "errdisable recovery interval " ++ toString s.errdisable_recovery_interval]
  ++ ["interface vlan " ++ toString s.manager_vlan_id,
      " ip address " ++ s.manager_ip,
      " no shutdown",
      " exit",
      "ip default-gateway " ++ s.default_gateway]

end SwitchTemplate

/-- A child template passed in `nested_templates` (conventionally an Access or
a Trunk template; both carry a `generate_config` method, so the source's
`hasattr` guard always passes for them). -/
inductive PortTemplate
  | access (t : AccessTemplate)
  | trunk (t : TrunkTemplate)

/-- Dispatch of `tmpl.generate_config()` on a child template. -/
def PortTemplate.generate_config : PortTemplate → List String
  | .access t => t.generate_config
  | .trunk t => t.generate_config

namespace SwitchTemplate

/-- Child-template section (source lines 490-496): each child's lines are
appended one by one via `cfg.append(f"{line}")`, i.e. verbatim; the guard
`if nested_templates:` skips an empty list. -/
def nestedBlock (nested_templates : List PortTemplate) : List String :=
  if nested_templates.isEmpty then []
  else nested_templates.flatMap (fun tmpl => tmpl.generate_config)

/-- `SwitchTemplate.generate_config`: the device-wide preamble, then the child
templates' lines, then the closing `end` / `write memory`. -/
def generate_config (s : SwitchTemplate)
    (nested_templates : List PortTemplate) : List String :=
  s.devicePreamble ++ nestedBlock nested_templates ++ ["end", "write memory"]

end SwitchTemplate

/-- Embedding of `InterfaceAssignmentManager`: the Python dict
`interface_map` becomes an association list in insertion order (device
catalogs list each interface once, so the dict-comprehension in `__init__`
introduces one entry per interface). -/
structure InterfaceAssignmentManager where
  interface_map : List (String × String)

namespace InterfaceAssignmentManager

/-- `__init__(interfaces, default_template)`: every interface is bound to the
default template. -/
def init (interfaces : List String) (default_template : String) :
    InterfaceAssignmentManager :=
  ⟨interfaces.map (fun iface => (iface, default_template))⟩

/-- Python `interface in self.interface_map` (dict-key membership). -/
def hasInterface (m : InterfaceAssignmentManager) (interface : String) : Bool :=
  m.interface_map.any (fun e => e.1 = interface)

/-- `assign(interface, template)`: returns the boolean result together with
the (possibly updated) manager, modelling the in-place dict mutation. -/
def assign (m : InterfaceAssignmentManager) (interface template : String) :
    Bool × InterfaceAssignmentManager :=
  if m.hasInterface interface then
    (true, ⟨m.interface_map.map (fun e => if e.1 = interface then (e.1, template) else e)⟩)
  else
    (false, m)

/-- `get_template(interface)`: the bound template name, or `""` when the
interface is unknown (`dict.get(interface, "")`). -/
def get_template (m : InterfaceAssignmentManager) (interface : String) : String :=
  match m.interface_map.find? (fun e => e.1 = interface) with
  | some e => e.2
  | none => ""

/-- `get_interfaces_for_template(template)`: all interfaces currently bound to
the template, in insertion order of the mapping. -/
def get_interfaces_for_template (m : InterfaceAssignmentManager)
    (template : String) : List String :=
  (m.interface_map.filter (fun e => e.2 = template)).map Prod.fst

/-- The key set (domain) of the manager's mapping. -/
def keys (m : InterfaceAssignmentManager) : List String :=
  m.interface_map.map Prod.fst

/-- A sequence of `assign` calls, applied in order (the returned booleans are
discarded, as the UI does after showing its dialog). -/
def applyAssigns (m : InterfaceAssignmentManager)
    (ops : List (String × String)) : InterfaceAssignmentManager :=
  ops.foldl (fun acc op => (acc.assign op.1 op.2).2) m

end InterfaceAssignmentManager

/-- The number of boolean feature flags of an `AccessTemplate` that are
enabled: one term per `bool` field of the dataclass, in field order. -/
def enabledFlagCount (t : AccessTemplate) : Nat :=
  t.auto_mdix.toNat + t.energy_efficient_ethernet.toNat
  + t.port_security_enabled.toNat + t.sticky_mac.toNat
  + t.voice_vlan_dot1p.toNat + t.voice_vlan_none.toNat
  + t.spanning_tree_portfast.toNat + t.spanning_tree_portfast_trunk.toNat
  + t.bpdu_guard.toNat + t.bpdu_filter.toNat + t.loop_guard.toNat
  + t.root_guard.toNat + t.priority_queue_out.toNat
  + t.authentication_open.toNat + t.authentication_periodic.toNat
  + t.mab.toNat + t.dot1x.toNat + t.webauth.toNat + t.webauth_local.toNat
  + t.poe_enabled.toNat + t.storm_control_unit_pps.toNat
  + t.private_vlan_host.toNat + t.protected_port.toNat + t.no_neighbor.toNat
  + t.cdp_enabled.toNat + t.lldp_transmit.toNat + t.lldp_receive.toNat
  + t.dhcp_snoop_trust.toNat + t.arp_inspection_trust.toNat
  + t.ip_source_guard.toNat + t.udld_enable.toNat + t.udld_aggressive.toNat
  + t.flow_control_receive.toNat + t.flow_control_send.toNat
  + t.device_tracking.toNat + t.ip_dhcp_relay_information.toNat
  + t.ipv6_nd_inspection.toNat + t.ipv6_ra_guard.toNat

/-- The enabled boolean feature flags that each contribute a CLI line when
set (a line of their own, or — for `voice_vlan_dot1p` and `no_neighbor` — a
line that may coincide with the one of `voice_vlan_none` /
`protected_port`).  The excluded flags are exactly the ones that can emit
nothing when set: the default-on presentational flags (`cdp_enabled`,
`lldp_transmit`, `lldp_receive`, `webauth_local`), the unit selector
`storm_control_unit_pps`, and the modifier flags that render only together
with another flag (`spanning_tree_portfast_trunk`, `sticky_mac`,
`authentication_open`, `authentication_periodic`, `udld_aggressive`). -/
def enabledEmittingFlagCount (t : AccessTemplate) : Nat :=
  t.auto_mdix.toNat + t.energy_efficient_ethernet.toNat
  + t.port_security_enabled.toNat + t.voice_vlan_none.toNat
  + t.voice_vlan_dot1p.toNat
  + t.spanning_tree_portfast.toNat
  + t.bpdu_guard.toNat + t.bpdu_filter.toNat + t.loop_guard.toNat
  + t.root_guard.toNat + t.priority_queue_out.toNat
  + t.mab.toNat + t.dot1x.toNat + t.webauth.toNat + t.poe_enabled.toNat
  + t.private_vlan_host.toNat + t.protected_port.toNat + t.no_neighbor.toNat
  + t.dhcp_snoop_trust.toNat + t.arp_inspection_trust.toNat
  + t.ip_source_guard.toNat + t.udld_enable.toNat
  + t.flow_control_receive.toNat + t.flow_control_send.toNat
  + t.device_tracking.toNat + t.ip_dhcp_relay_information.toNat
  + t.ipv6_nd_inspection.toNat + t.ipv6_ra_guard.toNat

/-- An access template on which enabled flags outnumber rendered lines: the
ten enabled flags are exactly the ones that emit no line by themselves,
while `spanning_tree_portfast := false` and `poe_enabled := false` shrink
the output to seven lines. -/
def accessFlagCx : AccessTemplate :=
  { interfaces := ["Gig1/0/1"],
    spanning_tree_portfast := false,
    poe_enabled := false,
    storm_control_unit_pps := true,
    sticky_mac := true,
    spanning_tree_portfast_trunk := true,
    authentication_open := true,
    authentication_periodic := true,
    udld_aggressive := true }

/-- A minimal trunk child used to examine the chassis nesting behavior. -/
def childCx : PortTemplate := .trunk { interfaces := ["Gi0/1"] }

/-- An access template with storm-control thresholds set, used as the C5
witness input. -/
def accessStormEx : AccessTemplate :=
  { interfaces := ["Gi0/1"],
    storm_control_broadcast_min := some "80.0",
    storm_control_broadcast_max := some "90.0",
    storm_control_multicast_min := some "50.5",
    storm_control_unit_pps := true }

/-- A trunk template with storm-control thresholds set, used as the C5
witness input. -/
def trunkStormEx : TrunkTemplate :=
  { interfaces := ["Gi0/2"],
    storm_control_broadcast_min := some "75.0",
    storm_control_unknown_unicast_min := some "10.0" }

/-- The trunk template of the spec's example scenario. -/
def trunkExample : TrunkTemplate :=
  { interfaces := ["Gig1/0/23", "Gig1/0/24"],
    allowed_vlans := [10, 20, 21, 22],
    native_vlan := 1 }

/-- The access template of the spec's example scenario. -/
def accessExample : AccessTemplate :=
  { interfaces := ["Gig1/0/1"], vlan_id := 10,
    port_security_enabled := true, max_mac_addresses := 2,
    violation_action := .RESTRICT }

namespace InterfaceAssignmentManager

theorem find?_map_update (l : List (String × String)) (i tpl : String)
    (h : l.any (fun e => e.1 = i) = true) :
    (l.map (fun e => if e.1 = i then (e.1, tpl) else e)).find? (fun e => e.1 = i)
      = some (i, tpl) := by
  induction l with
  | nil => simp at h
  | cons e rest ih =>
    by_cases he : e.1 = i
    · rw [List.map_cons, if_pos he, List.find?_cons_of_pos _ (by simp [he])]
      rw [he]
    · rw [List.map_cons, if_neg he, List.find?_cons_of_neg _ (by simp [he])]
      apply ih
      simp only [List.any_cons, Bool.or_eq_true, decide_eq_true_eq] at h
      rcases h with h | h
      · exact absurd h he
      · exact h

theorem find?_map_update_ne (l : List (String × String)) (i tpl j : String)
    (h : j ≠ i) :
    (l.map (fun e => if e.1 = i then (e.1, tpl) else e)).find? (fun e => e.1 = j)
      = l.find? (fun e => e.1 = j) := by
  induction l with
  | nil => rfl
  | cons e rest ih =>
    by_cases he : e.1 = i
    · have hne : ¬e.1 = j := fun hej => h (hej ▸ he ▸ rfl)
      rw [List.map_cons, if_pos he, List.find?_cons_of_neg _ (by simp [hne]),
        List.find?_cons_of_neg _ (by simp [hne])]
      exact ih
    · by_cases hej : e.1 = j
      · rw [List.map_cons, if_neg he, List.find?_cons_of_pos _ (by simp [hej]),
          List.find?_cons_of_pos _ (by simp [hej])]
      · rw [List.map_cons, if_neg he, List.find?_cons_of_neg _ (by simp [hej]),
          List.find?_cons_of_neg _ (by simp [hej])]
        exact ih

theorem keys_assign (m : InterfaceAssignmentManager) (i tpl : String) :
    ((m.assign i tpl).2).keys = m.keys := by
  unfold assign
  by_cases h : m.hasInterface i = true
  · simp only [h, if_true, keys, List.map_map]
    apply List.map_congr_left
    intro e he2
    by_cases he : e.1 = i
    · simp [he]
    · simp [he]
  · rw [if_neg h]

theorem hasInterface_iff_mem_keys (m : InterfaceAssignmentManager) (i : String) :
    m.hasInterface i = true ↔ i ∈ m.keys := by
  simp only [hasInterface, keys, List.any_eq_true, decide_eq_true_eq,
    List.mem_map]

theorem keys_applyAssigns (ops : List (String × String))
    (m : InterfaceAssignmentManager) :
    (m.applyAssigns ops).keys = m.keys := by
  induction ops generalizing m with
  | nil => rfl
  | cons op rest ih =>
    simp only [applyAssigns, List.foldl_cons]
    rw [show (List.foldl (fun acc op => (acc.assign op.1 op.2).2) ((m.assign op.1 op.2).2) rest)
          = ((m.assign op.1 op.2).2).applyAssigns rest from rfl]
    rw [ih, keys_assign]

theorem keys_init (interfaces : List String) (d : String) :
    (init interfaces d).keys = interfaces := by
  show List.map Prod.fst (interfaces.map (fun iface => (iface, d))) = interfaces
  rw [List.map_map]
  have : (Prod.fst ∘ fun iface : String => (iface, d)) = id := rfl
  rw [this, List.map_id]

theorem assign_fst (m : InterfaceAssignmentManager) (i tpl : String)
    (h : m.hasInterface i = true) : (m.assign i tpl).1 = true := by
  simp [assign, h]

theorem get_template_assign_self (m : InterfaceAssignmentManager)
    (i tpl : String) (h : m.hasInterface i = true) :
    ((m.assign i tpl).2).get_template i = tpl := by
  simp only [assign, h, if_true]
  unfold get_template
  rw [show ((⟨m.interface_map.map
      (fun e => if e.1 = i then (e.1, tpl) else e)⟩ :
        InterfaceAssignmentManager)).interface_map
    = m.interface_map.map (fun e => if e.1 = i then (e.1, tpl) else e) from rfl]
  rw [find?_map_update m.interface_map i tpl h]

end InterfaceAssignmentManager

/-- C1: the claim says the trunk example renders a line equal to
`switchport trunk allowed vlan 1,10,20-22` (native VLAN folded into the
allowed list).  It does not: no rendered line — even after stripping the CLI
indentation — equals that string. -/
theorem C1_counterexample :
    "switchport trunk allowed vlan 1,10,20-22" ∉
      (TrunkTemplate.generate_config trunkExample).map dropIndent := by
  decide

/-- C1 (amended): the trunk example renders the allowed-VLAN line
` switchport trunk allowed vlan 10,20-22` — consecutive VLAN IDs are compacted
into start-end range tokens, but the native VLAN is not folded into the
allowed list; it appears only in its own ` switchport trunk native vlan 1`
line. -/
theorem C1_amended :
    " switchport trunk allowed vlan 10,20-22" ∈
        TrunkTemplate.generate_config trunkExample
      ∧ " switchport trunk native vlan 1" ∈
        TrunkTemplate.generate_config trunkExample := by
  decide

/-- C2: the access example's rendered sequence contains, in this relative
order (comparing lines with the CLI indentation stripped), the lines
`vlan 10`, `interface range Gig1/0/1`, `switchport mode access`,
`switchport access vlan 10`, `switchport port-security`,
`switchport port-security maximum 2`,
`switchport port-security violation restrict`, and the trailing `exit` is the
last line of the output. -/
theorem C2_access_example_order :
    List.Sublist
      ["vlan 10", "interface range Gig1/0/1", "switchport mode access",
       "switchport access vlan 10", "switchport port-security",
       "switchport port-security maximum 2",
       "switchport port-security violation restrict", "exit"]
      ((AccessTemplate.generate_config accessExample).map dropIndent)
    ∧ ((AccessTemplate.generate_config accessExample).map dropIndent).getLast?
        = some "exit" := by
  decide

theorem toNat_le_length_onlyIf (b : Bool) (l : List String)
    (h : 1 ≤ l.length) : b.toNat ≤ (onlyIf b l).length := by
  cases b
  · simp
  · simpa [onlyIf] using h

namespace AccessTemplate

theorem two_le_length_vlanBlock (t : AccessTemplate) :
    2 ≤ t.vlanBlock.length := by
  simp only [vlanBlock, List.length_append]
  simp

theorem three_le_length_headerBlock (t : AccessTemplate) :
    3 ≤ t.headerBlock.length := by
  simp only [headerBlock, List.length_append]
  simp

theorem voice_le_length_voiceBlock (t : AccessTemplate) :
    t.voice_vlan_none.toNat + t.voice_vlan_dot1p.toNat
      ≤ t.voiceBlock.length + 1 := by
  cases h1 : t.voice_vlan_none <;> cases h2 : t.voice_vlan_dot1p <;>
    simp [voiceBlock, h1, h2]

theorem pvlan_le_length_pvlanBlock (t : AccessTemplate) :
    t.private_vlan_host.toNat + t.protected_port.toNat + t.no_neighbor.toNat
      ≤ t.pvlanBlock.length + 1 := by
  cases h1 : t.private_vlan_host <;> cases h2 : t.protected_port <;>
    cases h3 : t.no_neighbor <;>
    simp [pvlanBlock, h1, h2, h3, onlyIf]

theorem stp_le_length_stpBlock (t : AccessTemplate) :
    t.spanning_tree_portfast.toNat + t.bpdu_guard.toNat
      + t.bpdu_filter.toNat + t.loop_guard.toNat + t.root_guard.toNat
      ≤ t.stpBlock.length := by
  cases h1 : t.spanning_tree_portfast <;> cases h2 : t.bpdu_guard <;>
    cases h3 : t.bpdu_filter <;> cases h4 : t.loop_guard <;>
    cases h5 : t.root_guard <;>
    simp [stpBlock, h1, h2, h3, h4, h5, onlyIf]

theorem pq_le_length_qosBlock (t : AccessTemplate) :
    t.priority_queue_out.toNat ≤ t.qosBlock.length := by
  cases h : t.priority_queue_out
  · simp
  · simp [qosBlock, h, onlyIf]
    omega

theorem dot1x_le_length_authBlock (t : AccessTemplate) :
    t.dot1x.toNat ≤ t.authBlock.length := by
  cases h : t.dot1x
  · simp
  · simp [authBlock, h, onlyIf]

theorem poe_le_length_poeBlock (t : AccessTemplate) :
    1 + t.poe_enabled.toNat ≤ t.poeBlock.length := by
  cases h : t.poe_enabled
  · simp [poeBlock, h]
  · simp [poeBlock, h]

theorem phys_le_length_physBlock (t : AccessTemplate) :
    t.auto_mdix.toNat + t.energy_efficient_ethernet.toNat
      ≤ t.physBlock.length := by
  cases h1 : t.auto_mdix <;> cases h2 : t.energy_efficient_ethernet <;>
    simp [physBlock, h1, h2, onlyIf] <;> omega

theorem flow_le_length_flowBlock (t : AccessTemplate) :
    t.flow_control_receive.toNat + t.flow_control_send.toNat
      ≤ t.flowBlock.length := by
  cases h1 : t.flow_control_receive <;> cases h2 : t.flow_control_send <;>
    simp [flowBlock, h1, h2, onlyIf]

theorem udld_le_length_udldBlock (t : AccessTemplate) :
    t.udld_enable.toNat ≤ t.udldBlock.length := by
  cases h : t.udld_enable
  · simp
  · simp [udldBlock, h, onlyIf]

theorem snoop_le_length_snoopBlock (t : AccessTemplate) :
    t.dhcp_snoop_trust.toNat + t.ip_dhcp_relay_information.toNat
      + t.arp_inspection_trust.toNat + t.ip_source_guard.toNat
      ≤ t.snoopBlock.length := by
  cases h1 : t.dhcp_snoop_trust <;> cases h2 : t.ip_dhcp_relay_information <;>
    cases h3 : t.arp_inspection_trust <;> cases h4 : t.ip_source_guard <;>
    simp [snoopBlock, h1, h2, h3, h4, onlyIf] <;> omega

theorem ipv6_le_length_ipv6Block (t : AccessTemplate) :
    t.ipv6_nd_inspection.toNat + t.ipv6_ra_guard.toNat
      + t.device_tracking.toNat ≤ t.ipv6Block.length := by
  cases h1 : t.ipv6_nd_inspection <;> cases h2 : t.ipv6_ra_guard <;>
    cases h3 : t.device_tracking <;>
    simp [ipv6Block, h1, h2, h3, onlyIf]

theorem psec_le_length_portSecBlock (t : AccessTemplate) :
    t.port_security_enabled.toNat ≤ t.portSecBlock.length := by
  cases h : t.port_security_enabled
  · simp
  · simp [portSecBlock, h, onlyIf]

end AccessTemplate

/-- C3 as stated is false: on `accessFlagCx` (ten enabled flags, none of
which emits a line by itself) the rendered output has only seven lines, so
the claimed strict lower bound fails even though the output does begin with
the `vlan` block and end with `exit`. -/
theorem C3_counterexample :
    ¬ ((AccessTemplate.generate_config accessFlagCx).head?
          = some ("vlan " ++ toString accessFlagCx.vlan_id)
        ∧ (AccessTemplate.generate_config accessFlagCx).getLast? = some " exit"
        ∧ enabledFlagCount accessFlagCx
            < (AccessTemplate.generate_config accessFlagCx).length) := by
  decide

/-- C3 (amended): for every access template with a non-empty interfaces
list, the output starts with the `vlan <id>` line, ends with the indented
`exit` line, and its length strictly exceeds the number of enabled boolean
feature flags that contribute configuration lines
(`enabledEmittingFlagCount`: all boolean flags except the ones that can
emit nothing when set — the default-on presentational flags, the pps unit
selector, and the modifier flags that render only together with another
flag). -/
theorem C3_amended (t : AccessTemplate) (h : t.interfaces ≠ []) :
    (t.generate_config).head? = some ("vlan " ++ toString t.vlan_id)
    ∧ (t.generate_config).getLast? = some " exit"
    ∧ enabledEmittingFlagCount t < (t.generate_config).length := by
  have hg : t.generate_config =
      t.vlanBlock ++ t.headerBlock ++ t.voiceBlock ++ t.pvlanBlock
      ++ t.stpBlock ++ t.qosBlock ++ t.authBlock
      ++ onlyIf t.mab [" mab"]
      ++ onlyIf t.webauth
          [if t.webauth_local then " web-auth" else " web-auth authentication-list default"]
      ++ t.poeBlock ++ t.stormBlock
      ++ ifStr t.storm_control_action (fun a => " storm-control action " ++ a)
      ++ t.physBlock ++ t.flowBlock ++ t.cdpLldpBlock
      ++ onlyIf (t.load_interval ≠ 300) [" load-interval " ++ toString t.load_interval]
      ++ t.udldBlock ++ t.errdisableBlock ++ t.snoopBlock ++ t.ipv6Block
      ++ t.portSecBlock
      ++ [" exit"] := by
    simp [AccessTemplate.generate_config, h]
  refine ⟨?_, ?_, ?_⟩
  · rw [hg]
    simp [AccessTemplate.vlanBlock]
  · rw [hg]
    simp [List.getLast?_append]
  · have h01 := AccessTemplate.two_le_length_vlanBlock t
    have h02 := AccessTemplate.three_le_length_headerBlock t
    have h03 := AccessTemplate.voice_le_length_voiceBlock t
    have h04 := AccessTemplate.pvlan_le_length_pvlanBlock t
    have h05 := AccessTemplate.stp_le_length_stpBlock t
    have h06 := AccessTemplate.pq_le_length_qosBlock t
    have h07 := AccessTemplate.dot1x_le_length_authBlock t
    have h08 := toNat_le_length_onlyIf t.mab [" mab"] (by simp)
    have h09 := toNat_le_length_onlyIf t.webauth
      [if t.webauth_local then " web-auth" else " web-auth authentication-list default"]
      (by simp)
    have h10 := AccessTemplate.poe_le_length_poeBlock t
    have h11 := AccessTemplate.phys_le_length_physBlock t
    have h12 := AccessTemplate.flow_le_length_flowBlock t
    have h13 := AccessTemplate.udld_le_length_udldBlock t
    have h14 := AccessTemplate.snoop_le_length_snoopBlock t
    have h15 := AccessTemplate.ipv6_le_length_ipv6Block t
    have h16 := AccessTemplate.psec_le_length_portSecBlock t
    have hlen : (t.generate_config).length =
        t.vlanBlock.length + t.headerBlock.length + t.voiceBlock.length
        + t.pvlanBlock.length + t.stpBlock.length + t.qosBlock.length
        + t.authBlock.length + (onlyIf t.mab [" mab"]).length
        + (onlyIf t.webauth
            [if t.webauth_local then " web-auth" else " web-auth authentication-list default"]).length
        + t.poeBlock.length + t.stormBlock.length
        + (ifStr t.storm_control_action (fun a => " storm-control action " ++ a)).length
        + t.physBlock.length + t.flowBlock.length + t.cdpLldpBlock.length
        + (onlyIf (t.load_interval ≠ 300) [" load-interval " ++ toString t.load_interval]).length
        + t.udldBlock.length + t.errdisableBlock.length + t.snoopBlock.length
        + t.ipv6Block.length + t.portSecBlock.length + 1 := by
      rw [hg]
      simp [List.length_append]
      omega
    rw [hlen]
    unfold enabledEmittingFlagCount
    omega

/-- Witness for the amended C3 at the default template with one interface. -/
theorem C3_amended_witness :
    (AccessTemplate.generate_config { interfaces := ["Gig1/0/1"] }).head?
        = some ("vlan " ++ toString ({ interfaces := ["Gig1/0/1"] } : AccessTemplate).vlan_id)
    ∧ (AccessTemplate.generate_config { interfaces := ["Gig1/0/1"] }).getLast? = some " exit"
    ∧ enabledEmittingFlagCount { interfaces := ["Gig1/0/1"] }
        < (AccessTemplate.generate_config { interfaces := ["Gig1/0/1"] }).length :=
  C3_amended { interfaces := ["Gig1/0/1"] } (by decide)

/-- C4: the claim says each child's line sequence appears *indented* in the
chassis output.  It does not: on a default chassis template with one trunk
child, the only output line carrying the child's first line
`interface range Gi0/1` as a suffix is that line itself, un-indented — so no
copy of the child block with any indentation prefix occurs. -/
theorem C4_counterexample :
    (SwitchTemplate.generate_config {} [childCx]).filter
        (fun l => ("interface range Gi0/1").data.isSuffixOf l.data)
      = ["interface range Gi0/1"] := by
  decide

/-- C4 (amended): the chassis `generate_config` splices each child's line
sequence verbatim (without added indentation) as a contiguous block placed
after the device-wide preamble and before the closing `end` / `write memory`
lines. -/
theorem C4_amended (s : SwitchTemplate) (cs : List PortTemplate)
    (c : PortTemplate) (hc : c ∈ cs) :
    ∃ pre post : List String,
      SwitchTemplate.generate_config s cs
        = (s.devicePreamble ++ pre) ++ c.generate_config
          ++ (post ++ ["end", "write memory"]) := by
  obtain ⟨l1, l2, rfl⟩ := List.append_of_mem hc
  refine ⟨l1.flatMap PortTemplate.generate_config,
    l2.flatMap PortTemplate.generate_config, ?_⟩
  unfold SwitchTemplate.generate_config SwitchTemplate.nestedBlock
  have hne : (l1 ++ c :: l2).isEmpty = false := by
    cases l1 <;> simp
  simp [hne, List.append_assoc]

/-- Witness for the amended C4: the default chassis with the one-trunk child
list. -/
theorem C4_amended_witness :
    ∃ pre post : List String,
      SwitchTemplate.generate_config {} [childCx]
        = (SwitchTemplate.devicePreamble {} ++ pre)
          ++ childCx.generate_config ++ (post ++ ["end", "write memory"]) :=
  C4_amended {} [childCx] childCx (List.mem_singleton.mpr rfl)

theorem not_prefix_append {α : Type} {p a : List α} (d : List α)
    (h1 : ¬ p <+: a) (h2 : ¬ a <+: p) : ¬ p <+: (a ++ d) := by
  intro hp
  rcases le_or_lt p.length a.length with hle | hlt
  · exact h1 (List.prefix_of_prefix_length_le hp (List.prefix_append a d) hle)
  · exact h2 (List.prefix_of_prefix_length_le (List.prefix_append a d) hp hlt.le)

theorem isFor_false_of_no_pfx (c : String) (l : String)
    (h : ¬ stormPrefix c <+: l.data) : isStormLevelLineFor c l = false := by
  unfold isStormLevelLineFor
  rw [Bool.eq_false_iff]
  intro hb
  exact h (List.isPrefixOf_iff_prefix.mp hb)

theorem isFor_append_false (c : String) (a s : String)
    (h1 : ¬ stormPrefix c <+: a.data) (h2 : ¬ a.data <+: stormPrefix c) :
    isStormLevelLineFor c (a ++ s) = false := by
  apply isFor_false_of_no_pfx
  rw [String.data_append]
  exact not_prefix_append s.data h1 h2

theorem safeHead_spec (a : String) (h : safeHead a = true) (c : String)
    (hc : c ∈ ["broadcast", "multicast", "unknown-unicast"]) :
    ¬ stormPrefix c <+: a.data ∧ ¬ a.data <+: stormPrefix c := by
  simp only [safeHead, List.all_eq_true, Bool.and_eq_true, Bool.not_eq_true'] at h
  obtain ⟨hp, hq⟩ := h c hc
  constructor
  · intro hpre
    rw [(List.isPrefixOf_iff_prefix).mpr hpre] at hp
    exact Bool.true_eq_false.mp hp
  · intro hpre
    rw [(List.isPrefixOf_iff_prefix).mpr hpre] at hq
    exact Bool.true_eq_false.mp hq

theorem isStorm_append_false (a s : String) (h : safeHead a = true) :
    isStormLevelLine (a ++ s) = false := by
  have hb := safeHead_spec a h "broadcast" (by simp)
  have hm := safeHead_spec a h "multicast" (by simp)
  have hu := safeHead_spec a h "unknown-unicast" (by simp)
  unfold isStormLevelLine
  rw [isFor_append_false _ _ _ hb.1 hb.2, isFor_append_false _ _ _ hm.1 hm.2,
    isFor_append_false _ _ _ hu.1 hu.2]
  rfl

theorem isStorm_line_false (a : String) (h : safeHead a = true) :
    isStormLevelLine a = false := by
  have hb := safeHead_spec a h "broadcast" (by simp)
  have hm := safeHead_spec a h "multicast" (by simp)
  have hu := safeHead_spec a h "unknown-unicast" (by simp)
  unfold isStormLevelLine
  rw [isFor_false_of_no_pfx _ _ hb.1, isFor_false_of_no_pfx _ _ hm.1,
    isFor_false_of_no_pfx _ _ hu.1]
  rfl

theorem stormFree_nil : StormFree [] :=
  fun l hl => absurd hl (List.not_mem_nil l)

theorem stormFree_cons {x : String} {xs : List String}
    (hx : isStormLevelLine x = false) (hxs : StormFree xs) :
    StormFree (x :: xs) := by
  intro l hl
  rcases List.mem_cons.mp hl with rfl | hl
  · exact hx
  · exact hxs l hl

theorem stormFree_singleton {x : String} (hx : isStormLevelLine x = false) :
    StormFree [x] :=
  stormFree_cons hx stormFree_nil

theorem stormFree_append {a b : List String} (ha : StormFree a)
    (hb : StormFree b) : StormFree (a ++ b) := by
  intro l hl
  rcases List.mem_append.mp hl with hl | hl
  · exact ha l hl
  · exact hb l hl

theorem stormFree_onlyIf (b : Bool) (l : List String) (h : StormFree l) :
    StormFree (onlyIf b l) := by
  cases b
  · exact stormFree_nil
  · exact h

theorem stormFree_ite (c : Prop) [Decidable c] (a b : List String)
    (ha : StormFree a) (hb : StormFree b) : StormFree (if c then a else b) := by
  by_cases h : c
  · rwa [if_pos h]
  · rwa [if_neg h]

theorem stormFree_ifStr (o : Option String) (f : String → String)
    (h : ∀ s, isStormLevelLine (f s) = false) : StormFree (ifStr o f) := by
  match o with
  | none => exact stormFree_nil
  | some s =>
    unfold ifStr
    exact stormFree_ite _ _ _ stormFree_nil (stormFree_singleton (h s))

theorem stormFree_ifNat (o : Option Nat) (f : Nat → String)
    (h : ∀ n, isStormLevelLine (f n) = false) : StormFree (ifNat o f) := by
  match o with
  | none => exact stormFree_nil
  | some n =>
    unfold ifNat
    exact stormFree_ite _ _ _ stormFree_nil (stormFree_singleton (h n))

theorem stormFree_ifSome {α : Type} (o : Option α) (f : α → String)
    (h : ∀ v, isStormLevelLine (f v) = false) : StormFree (ifSome o f) := by
  match o with
  | none => exact stormFree_nil
  | some v => exact stormFree_singleton (h v)

theorem stormFree_map {β : Type} (g : β → String) (xs : List β)
    (h : ∀ x, isStormLevelLine (g x) = false) : StormFree (xs.map g) := by
  intro l hl
  obtain ⟨x, _, rfl⟩ := List.mem_map.mp hl
  exact h x

theorem filter_storm_eq_nil {ls : List String} (h : StormFree ls) :
    ls.filter isStormLevelLine = [] :=
  List.filter_eq_nil_iff.mpr (fun a ha => by simp [h a ha])

theorem countP_storm_eq_zero (c : String)
    (hc : c ∈ ["broadcast", "multicast", "unknown-unicast"])
    {ls : List String} (h : StormFree ls) :
    ls.countP (fun l => isStormLevelLineFor c l) = 0 := by
  rw [List.countP_eq_zero]
  intro a ha
  have hfree := h a ha
  unfold isStormLevelLine at hfree
  simp only [Bool.or_eq_false_iff] at hfree
  simp only [List.mem_cons, List.not_mem_nil, or_false] at hc
  rcases hc with rfl | rfl | rfl
  · simp [hfree.1.1]
  · simp [hfree.1.2]
  · simp [hfree.2]

theorem endsPps_append_sep_pps (y : String) : endsPps (y ++ " " ++ "pps") = true := by
  unfold endsPps
  apply List.isSuffixOf_iff_suffix.mpr
  rw [String.data_append]
  exact List.suffix_append _ _

theorem endsPps_append_unit_pps (y : String) : endsPps (y ++ " pps") = true := by
  unfold endsPps
  apply List.isSuffixOf_iff_suffix.mpr
  rw [String.data_append]
  exact List.IsSuffix.trans (by decide) (List.suffix_append _ _)

theorem isSuffixOf_pps_false_of_last (l : List Char)
    (h : ∀ ch, l.getLast? = some ch → ¬ch = 's') :
    ("pps").data.isSuffixOf l = false := by
  rw [Bool.eq_false_iff]
  intro hb
  obtain ⟨y, hy⟩ := List.isSuffixOf_iff_suffix.mp hb
  have : l.getLast? = some 's' := by
    rw [← hy, List.getLast?_append]
    rfl
  exact h 's' this rfl

theorem lastChar_of_append_numeric (a m : String)
    (ha : a.data.getLast? = some ' ') (hm : NumStr m = true) :
    ∀ ch, (a ++ m).data.getLast? = some ch → ¬ch = 's' := by
  intro ch hch
  rw [String.data_append, List.getLast?_append] at hch
  cases hm' : m.data.getLast? with
  | none =>
    rw [hm', Option.none_or, ha] at hch
    cases hch
    decide
  | some d =>
    rw [hm'] at hch
    rw [show (some d).or a.data.getLast? = some d from rfl] at hch
    cases hch
    obtain ⟨ys, hys⟩ := List.getLast?_eq_some_iff.mp hm'
    have hd : ch ∈ m.data := by
      rw [hys]
      simp
    have := List.all_eq_true.mp hm ch hd
    simp only [Bool.or_eq_true, decide_eq_true_eq] at this
    rcases this with hdig | hdot
    · intro hs
      rw [hs] at hdig
      exact absurd hdig (by decide)
    · intro hs
      rw [hs] at hdot
      exact absurd hdot (by decide)

theorem stormPrefixStr_last (c : String) :
    ((" storm-control " ++ c ++ " level ").data).getLast? = some ' ' := by
  rw [String.data_append, List.getLast?_append]
  rfl

theorem sepSpace_last (y : String) :
    ((y ++ " ").data).getLast? = some ' ' := by
  rw [String.data_append, List.getLast?_append]
  rfl

namespace AccessTemplate

theorem accFmt_shape (t : AccessTemplate) (c : String) (mn mx : Option String)
    (l : String) (h : t._fmt_storm_line c mn mx = some l) :
    ∃ rest : String, l = (" storm-control " ++ c ++ " level ") ++ rest := by
  rcases mn with _ | m
  · simp [_fmt_storm_line] at h
  · rcases mx with _ | x <;> cases hp : t.storm_control_unit_pps <;>
      simp [_fmt_storm_line, hp] at h <;> subst h
    · exact ⟨m, rfl⟩
    · exact ⟨m ++ " " ++ "pps", by simp [String.append_assoc]⟩
    · exact ⟨m ++ " " ++ x, by simp [String.append_assoc]⟩
    · exact ⟨m ++ " " ++ x ++ " " ++ "pps", by simp [String.append_assoc]⟩

theorem accFmt_isSome (t : AccessTemplate) (c : String) (mn mx : Option String) :
    (t._fmt_storm_line c mn mx).isSome = mn.isSome := by
  rcases mn with _ | m
  · rfl
  · simp [_fmt_storm_line]

theorem accFmt_endsPps (t : AccessTemplate) (c : String) (mn mx : Option String)
    (l : String) (hmn : NumOpt mn = true) (hmx : NumOpt mx = true)
    (h : t._fmt_storm_line c mn mx = some l) :
    endsPps l = t.storm_control_unit_pps := by
  rcases mn with _ | m
  · simp [_fmt_storm_line] at h
  · rcases mx with _ | x <;> cases hp : t.storm_control_unit_pps <;>
      simp [_fmt_storm_line, hp] at h <;> subst h
    · unfold endsPps
      exact isSuffixOf_pps_false_of_last _
        (lastChar_of_append_numeric _ m (stormPrefixStr_last c) hmn)
    · exact endsPps_append_sep_pps _
    · unfold endsPps
      exact isSuffixOf_pps_false_of_last _
        (lastChar_of_append_numeric _ x (sepSpace_last _) hmx)
    · exact endsPps_append_sep_pps _

end AccessTemplate

namespace TrunkTemplate

theorem trkFmt_shape (t : TrunkTemplate) (c : String) (mn mx : Option String)
    (l : String) (h : t._fmt_storm_line c mn mx = some l) :
    ∃ rest : String, l = (" storm-control " ++ c ++ " level ") ++ rest := by
  rcases mn with _ | m
  · simp [_fmt_storm_line] at h
  · rcases mx with _ | x <;> cases hp : t.storm_control_unit_pps <;>
      simp [_fmt_storm_line, hp] at h <;> subst h
    · exact ⟨m, rfl⟩
    · exact ⟨m ++ " pps", by simp [String.append_assoc]⟩
    · exact ⟨m ++ " " ++ x, by simp [String.append_assoc]⟩
    · exact ⟨m ++ " " ++ x ++ " pps", by simp [String.append_assoc]⟩

theorem trkFmt_isSome (t : TrunkTemplate) (c : String) (mn mx : Option String) :
    (t._fmt_storm_line c mn mx).isSome = mn.isSome := by
  rcases mn with _ | m
  · rfl
  · simp [_fmt_storm_line]

theorem trkFmt_endsPps (t : TrunkTemplate) (c : String) (mn mx : Option String)
    (l : String) (hmn : NumOpt mn = true) (hmx : NumOpt mx = true)
    (h : t._fmt_storm_line c mn mx = some l) :
    endsPps l = t.storm_control_unit_pps := by
  rcases mn with _ | m
  · simp [_fmt_storm_line] at h
  · rcases mx with _ | x <;> cases hp : t.storm_control_unit_pps <;>
      simp [_fmt_storm_line, hp] at h <;> subst h
    · unfold endsPps
      exact isSuffixOf_pps_false_of_last _
        (lastChar_of_append_numeric _ m (stormPrefixStr_last c) hmn)
    · exact endsPps_append_unit_pps _
    · unfold endsPps
      exact isSuffixOf_pps_false_of_last _
        (lastChar_of_append_numeric _ x (sepSpace_last _) hmx)
    · exact endsPps_append_unit_pps _

end TrunkTemplate

theorem isFor_of_prefix_form (c : String) (rest : String) :
    isStormLevelLineFor c ((" storm-control " ++ c ++ " level ") ++ rest)
      = true := by
  unfold isStormLevelLineFor stormPrefix
  apply List.isPrefixOf_iff_prefix.mpr
  rw [String.data_append]
  exact List.prefix_append _ _

theorem isStorm_of_prefix_form (c : String)
    (hc : c ∈ ["broadcast", "multicast", "unknown-unicast"]) (rest : String) :
    isStormLevelLine ((" storm-control " ++ c ++ " level ") ++ rest) = true := by
  unfold isStormLevelLine
  simp only [List.mem_cons, List.not_mem_nil, or_false] at hc
  rcases hc with rfl | rfl | rfl
  · rw [isFor_of_prefix_form]
    rfl
  · rw [isFor_of_prefix_form]
    simp
  · rw [isFor_of_prefix_form]
    simp

theorem isFor_false_of_other_class (c1 c2 : String) (rest : String)
    (h1 : ¬ stormPrefix c2 <+: (" storm-control " ++ c1 ++ " level ").data)
    (h2 : ¬ (" storm-control " ++ c1 ++ " level ").data <+: stormPrefix c2) :
    isStormLevelLineFor c2 ((" storm-control " ++ c1 ++ " level ") ++ rest)
      = false :=
  isFor_append_false c2 _ rest h1 h2

theorem stormFree_singleton_ite (c : Prop) [Decidable c] (s1 s2 : String)
    (h1 : isStormLevelLine s1 = false) (h2 : isStormLevelLine s2 = false) :
    StormFree [if c then s1 else s2] := by
  by_cases h : c
  · rw [if_pos h]
    exact stormFree_singleton h1
  · rw [if_neg h]
    exact stormFree_singleton h2

theorem sf_police (r b : Option Nat) (head : String)
    (hh : safeHead head = true) :
    StormFree (match r with
      | some v =>
        if v = 0 then []
        else
          match b with
          | some w =>
            if w = 0 then [head ++ toString v]
            else [head ++ toString v ++ " " ++ toString w]
          | none => [head ++ toString v]
      | none => []) := by
  rcases r with _ | v
  · exact stormFree_nil
  · refine stormFree_ite _ _ _ stormFree_nil ?_
    rcases b with _ | w
    · exact stormFree_singleton (isStorm_append_false head _ hh)
    · refine stormFree_ite _ _ _ ?_ ?_
      · exact stormFree_singleton (isStorm_append_false head _ hh)
      · refine stormFree_singleton ?_
        rw [String.append_assoc, String.append_assoc]
        exact isStorm_append_false head _ hh

namespace AccessTemplate

theorem sf_vlanBlock (t : AccessTemplate) : StormFree t.vlanBlock := by
  unfold vlanBlock
  refine stormFree_append (stormFree_append ?_ ?_) ?_
  · exact stormFree_singleton (isStorm_append_false "vlan " _ (by decide))
  · exact stormFree_ifStr _ _ (fun s => isStorm_append_false " name " s (by decide))
  · exact stormFree_singleton (by decide)

theorem sf_headerBlock (t : AccessTemplate) : StormFree t.headerBlock := by
  unfold headerBlock
  refine stormFree_append ?_ ?_
  · refine stormFree_cons (isStorm_append_false "interface range " _ (by decide)) ?_
    refine stormFree_cons (by decide) ?_
    exact stormFree_singleton (isStorm_append_false " switchport access vlan " _ (by decide))
  · exact stormFree_ifStr _ _ (fun s => isStorm_append_false " description " s (by decide))

theorem sf_voiceBlock (t : AccessTemplate) : StormFree t.voiceBlock := by
  unfold voiceBlock
  refine stormFree_ite _ _ _ (stormFree_singleton (by decide)) ?_
  refine stormFree_ite _ _ _ (stormFree_singleton (by decide)) ?_
  exact stormFree_ifNat _ _
    (fun n => isStorm_append_false " switchport voice vlan " _ (by decide))

theorem sf_pvlanBlock (t : AccessTemplate) : StormFree t.pvlanBlock := by
  unfold pvlanBlock
  refine stormFree_append (stormFree_append ?_ ?_) ?_
  · exact stormFree_onlyIf _ _ (stormFree_singleton (by decide))
  · exact stormFree_ifStr _ _
      (fun s => isStorm_append_false " switchport private-vlan mapping " s (by decide))
  · exact stormFree_onlyIf _ _ (stormFree_singleton (by decide))

theorem sf_stpBlock (t : AccessTemplate) : StormFree t.stpBlock := by
  unfold stpBlock
  refine stormFree_append (stormFree_append (stormFree_append
    (stormFree_append (stormFree_append ?_ ?_) ?_) ?_) ?_) ?_
  · exact stormFree_onlyIf _ _ (stormFree_singleton_ite _ _ _ (by decide) (by decide))
  · exact stormFree_onlyIf _ _ (stormFree_singleton (by decide))
  · exact stormFree_onlyIf _ _ (stormFree_singleton (by decide))
  · exact stormFree_onlyIf _ _ (stormFree_singleton (by decide))
  · exact stormFree_onlyIf _ _ (stormFree_singleton (by decide))
  · exact stormFree_ifStr _ _
      (fun s => isStorm_append_false " spanning-tree link-type " s (by decide))

theorem sf_qosBlock (t : AccessTemplate) : StormFree t.qosBlock := by
  unfold qosBlock
  refine stormFree_append (stormFree_append (stormFree_append (stormFree_append
    (stormFree_append (stormFree_append (stormFree_append ?_ ?_) ?_) ?_) ?_)
    ?_) ?_) ?_
  · rcases h : t.qos_trust with _ | q
    · exact stormFree_nil
    · refine stormFree_ite _ _ _ stormFree_nil ?_
      exact stormFree_singleton (isStorm_append_false " mls qos trust " _ (by decide))
  · exact stormFree_ifSome _ _ (fun n => isStorm_append_false " mls qos cos " _ (by decide))
  · exact stormFree_ifSome _ _ (fun n => isStorm_append_false " mls qos dscp " _ (by decide))
  · exact stormFree_ifStr _ _ (fun s => isStorm_append_false " service-policy input " s (by decide))
  · exact stormFree_ifStr _ _ (fun s => isStorm_append_false " service-policy output " s (by decide))
  · exact stormFree_onlyIf _ _ (stormFree_singleton (by decide))
  · exact stormFree_ifNat _ _ (fun n => isStorm_append_false " shape average " _ (by decide))
  · exact sf_police _ _ " police " (by decide)

theorem sf_authBlock (t : AccessTemplate) : StormFree t.authBlock := by
  unfold authBlock
  apply stormFree_onlyIf
  refine stormFree_append (stormFree_append (stormFree_append (stormFree_append
    (stormFree_append (stormFree_append (stormFree_append ?_ ?_) ?_) ?_) ?_)
    ?_) ?_) ?_
  · refine stormFree_cons (by decide) ?_
    exact stormFree_singleton (isStorm_append_false " authentication host-mode " _ (by decide))
  · exact stormFree_onlyIf _ _ (stormFree_singleton (by decide))
  · exact stormFree_onlyIf _ _
      (stormFree_singleton (isStorm_append_false " authentication order " _ (by decide)))
  · exact stormFree_onlyIf _ _
      (stormFree_singleton (isStorm_append_false " authentication priority " _ (by decide)))
  · refine stormFree_onlyIf _ _ ?_
    refine stormFree_cons (by decide) ?_
    exact stormFree_singleton
      (isStorm_append_false " authentication timer reauthenticate " _ (by decide))
  · refine stormFree_cons (isStorm_append_false " authentication control-direction " _ (by decide)) ?_
    exact stormFree_singleton (isStorm_append_false " authentication violation " _ (by decide))
  · exact stormFree_ifStr _ _
      (fun s => isStorm_append_false " authentication fallback " s (by decide))
  · refine stormFree_cons (isStorm_append_false " dot1x timeout quiet-period " _ (by decide)) ?_
    refine stormFree_cons (isStorm_append_false " dot1x timeout tx-period " _ (by decide)) ?_
    exact stormFree_singleton (isStorm_append_false " dot1x max-req " _ (by decide))

theorem sf_poeBlock (t : AccessTemplate) : StormFree t.poeBlock := by
  unfold poeBlock
  refine stormFree_ite _ _ _ (stormFree_singleton (by decide)) ?_
  refine stormFree_append ?_ ?_
  · refine stormFree_cons (isStorm_append_false " power inline " _ (by decide)) ?_
    exact stormFree_singleton (isStorm_append_false " power inline priority " _ (by decide))
  · exact stormFree_ifNat _ _ (fun n => isStorm_append_false " power inline max " _ (by decide))

theorem sf_physBlock (t : AccessTemplate) : StormFree t.physBlock := by
  unfold physBlock
  refine stormFree_append (stormFree_append (stormFree_append ?_ ?_) ?_) ?_
  · exact stormFree_onlyIf _ _ (stormFree_singleton (isStorm_append_false " speed " _ (by decide)))
  · exact stormFree_onlyIf _ _ (stormFree_singleton (isStorm_append_false " duplex " _ (by decide)))
  · exact stormFree_onlyIf _ _ (stormFree_singleton (by decide))
  · exact stormFree_onlyIf _ _ (stormFree_singleton (by decide))

theorem sf_flowBlock (t : AccessTemplate) : StormFree t.flowBlock := by
  unfold flowBlock
  refine stormFree_append ?_ ?_
  · exact stormFree_onlyIf _ _ (stormFree_singleton (by decide))
  · exact stormFree_onlyIf _ _ (stormFree_singleton (by decide))

theorem sf_cdpLldpBlock (t : AccessTemplate) : StormFree t.cdpLldpBlock := by
  unfold cdpLldpBlock
  refine stormFree_append (stormFree_append ?_ ?_) ?_
  · exact stormFree_onlyIf _ _ (stormFree_singleton (by decide))
  · exact stormFree_onlyIf _ _ (stormFree_singleton (by decide))
  · exact stormFree_onlyIf _ _ (stormFree_singleton (by decide))

theorem sf_udldBlock (t : AccessTemplate) : StormFree t.udldBlock := by
  unfold udldBlock
  exact stormFree_onlyIf _ _ (stormFree_singleton_ite _ _ _ (by decide) (by decide))

theorem sf_errdisableBlock (t : AccessTemplate) : StormFree t.errdisableBlock := by
  unfold errdisableBlock
  refine stormFree_append ?_ ?_
  · exact stormFree_ifNat _ _ (fun n => isStorm_append_false " errdisable timeout " _ (by decide))
  · exact stormFree_map _ _ (fun c => isStorm_append_false " errdisable recovery cause " _ (by decide))

theorem sf_snoopBlock (t : AccessTemplate) : StormFree t.snoopBlock := by
  unfold snoopBlock
  refine stormFree_append (stormFree_append (stormFree_append
    (stormFree_append (stormFree_append ?_ ?_) ?_) ?_) ?_) ?_
  · exact stormFree_ifNat _ _ (fun n => isStorm_append_false " ip dhcp snooping limit rate " _ (by decide))
  · exact stormFree_onlyIf _ _ (stormFree_singleton (by decide))
  · exact stormFree_onlyIf _ _ (stormFree_singleton (by decide))
  · exact stormFree_ifNat _ _ (fun n => isStorm_append_false " ip arp inspection limit rate " _ (by decide))
  · exact stormFree_onlyIf _ _ (stormFree_singleton (by decide))
  · exact stormFree_onlyIf _ _ (stormFree_singleton (by decide))

theorem sf_ipv6Block (t : AccessTemplate) : StormFree t.ipv6Block := by
  unfold ipv6Block
  refine stormFree_append (stormFree_append ?_ ?_) ?_
  · exact stormFree_onlyIf _ _ (stormFree_singleton (by decide))
  · exact stormFree_onlyIf _ _ (stormFree_singleton (by decide))
  · exact stormFree_onlyIf _ _ (stormFree_singleton (by decide))

theorem sf_portSecBlock (t : AccessTemplate) : StormFree t.portSecBlock := by
  unfold portSecBlock
  apply stormFree_onlyIf
  refine stormFree_append (stormFree_append ?_ ?_) ?_
  · refine stormFree_cons (by decide) ?_
    refine stormFree_cons (isStorm_append_false " switchport port-security maximum " _ (by decide)) ?_
    exact stormFree_singleton (isStorm_append_false " switchport port-security violation " _ (by decide))
  · exact stormFree_onlyIf _ _ (stormFree_singleton (by decide))
  · exact stormFree_map _ _
      (fun m => isStorm_append_false " switchport port-security mac-address " _ (by decide))

end AccessTemplate

namespace TrunkTemplate

theorem sf_headBlock (t : TrunkTemplate) : StormFree t.headBlock := by
  unfold headBlock
  refine stormFree_append (stormFree_append (stormFree_append (stormFree_append
    (stormFree_append ?_ ?_) ?_) ?_) ?_) ?_
  · refine stormFree_cons (isStorm_append_false "interface range " _ (by decide)) ?_
    refine stormFree_cons (by decide) ?_
    refine stormFree_cons (isStorm_append_false " switchport trunk native vlan " _ (by decide)) ?_
    exact stormFree_singleton (isStorm_append_false " switchport trunk allowed vlan " _ (by decide))
  · exact stormFree_ifStr _ _ (fun s => isStorm_append_false " description " s (by decide))
  · exact stormFree_singleton_ite _ _ _ (by decide) (by decide)
  · rcases t.dtp_mode with _ | m
    · exact stormFree_nil
    · refine stormFree_ite _ _ _ stormFree_nil ?_
      exact stormFree_singleton (isStorm_append_false " switchport mode " _ (by decide))
  · exact stormFree_onlyIf _ _ (stormFree_singleton (by decide))
  · exact stormFree_onlyIf _ _
      (stormFree_singleton (isStorm_append_false " switchport trunk pruning vlan " _ (by decide)))

theorem trk_sf_stpBlock (t : TrunkTemplate) : StormFree t.stpBlock := by
  unfold stpBlock
  refine stormFree_append (stormFree_append (stormFree_append
    (stormFree_append ?_ ?_) ?_) ?_) ?_
  · exact stormFree_onlyIf _ _ (stormFree_singleton (by decide))
  · exact stormFree_onlyIf _ _ (stormFree_singleton (by decide))
  · exact stormFree_onlyIf _ _ (stormFree_singleton (by decide))
  · exact stormFree_ifStr _ _ (fun s => isStorm_append_false " spanning-tree link-type " s (by decide))
  · exact stormFree_onlyIf _ _ (stormFree_singleton (by decide))

theorem sf_secBlock (t : TrunkTemplate) : StormFree t.secBlock := by
  unfold secBlock
  refine stormFree_append (stormFree_append (stormFree_append (stormFree_append
    (stormFree_append (stormFree_append ?_ ?_) ?_) ?_) ?_) ?_) ?_
  · exact stormFree_onlyIf _ _ (stormFree_singleton (by decide))
  · exact stormFree_ifNat _ _ (fun n => isStorm_append_false " ip dhcp snooping limit rate " _ (by decide))
  · exact stormFree_onlyIf _ _ (stormFree_singleton (by decide))
  · exact stormFree_ifNat _ _ (fun n => isStorm_append_false " ip arp inspection limit rate " _ (by decide))
  · exact stormFree_onlyIf _ _ (stormFree_singleton (by decide))
  · exact stormFree_onlyIf _ _ (stormFree_singleton (by decide))
  · exact stormFree_onlyIf _ _ (stormFree_singleton (by decide))

theorem trk_sf_qosBlock (t : TrunkTemplate) : StormFree t.qosBlock := by
  unfold qosBlock
  refine stormFree_append (stormFree_append (stormFree_append (stormFree_append
    (stormFree_append ?_ ?_) ?_) ?_) ?_) ?_
  · rcases t.qos_trust with _ | q
    · exact stormFree_nil
    · refine stormFree_ite _ _ _ stormFree_nil ?_
      exact stormFree_singleton (isStorm_append_false " mls qos trust " _ (by decide))
  · exact stormFree_onlyIf _ _ (stormFree_singleton (by decide))
  · exact stormFree_ifStr _ _ (fun s => isStorm_append_false " service-policy input " s (by decide))
  · exact stormFree_ifStr _ _ (fun s => isStorm_append_false " service-policy output " s (by decide))
  · exact stormFree_ifNat _ _ (fun n => isStorm_append_false " shape average " _ (by decide))
  · exact sf_police _ _ " police " (by decide)

theorem trk_sf_physBlock (t : TrunkTemplate) : StormFree t.physBlock := by
  unfold physBlock
  refine stormFree_append (stormFree_append (stormFree_append (stormFree_append
    (stormFree_append ?_ ?_) ?_) ?_) ?_) ?_
  · exact stormFree_onlyIf _ _ (stormFree_singleton (isStorm_append_false " speed " _ (by decide)))
  · exact stormFree_onlyIf _ _ (stormFree_singleton (isStorm_append_false " duplex " _ (by decide)))
  · exact stormFree_onlyIf _ _ (stormFree_singleton (by decide))
  · exact stormFree_onlyIf _ _ (stormFree_singleton (by decide))
  · exact stormFree_onlyIf _ _ (stormFree_singleton (by decide))
  · exact stormFree_onlyIf _ _ (stormFree_singleton (by decide))

theorem sf_errBlock (t : TrunkTemplate) : StormFree t.errBlock := by
  unfold errBlock
  refine stormFree_append ?_ ?_
  · exact stormFree_ifNat _ _ (fun n => isStorm_append_false " errdisable timeout " _ (by decide))
  · exact stormFree_map _ _ (fun c => isStorm_append_false " errdisable recovery cause " _ (by decide))

theorem sf_channelBlock (t : TrunkTemplate) : StormFree t.channelBlock := by
  unfold channelBlock
  rcases t.channel_group with _ | g
  · exact stormFree_nil
  · refine stormFree_ite _ _ _ stormFree_nil ?_
    refine stormFree_append (stormFree_append (stormFree_append
      (stormFree_append ?_ ?_) ?_) ?_) ?_
    · refine stormFree_singleton ?_
      rw [String.append_assoc]
      exact isStorm_append_false " channel-group " _ (by decide)
    · exact stormFree_ifStr _ _ (fun s => isStorm_append_false " channel-protocol " s (by decide))
    · exact stormFree_ifNat _ _ (fun n => isStorm_append_false " lacp port-priority " _ (by decide))
    · exact stormFree_ifStr _ _ (fun s => isStorm_append_false " lacp rate " s (by decide))
    · exact stormFree_ifStr _ _ (fun s => isStorm_append_false " port-channel load-balance " s (by decide))

theorem sf_tailBlock (t : TrunkTemplate) : StormFree t.tailBlock := by
  unfold tailBlock
  refine stormFree_append (stormFree_append (stormFree_append
    (stormFree_append ?_ ?_) ?_) ?_) ?_
  · exact stormFree_onlyIf _ _ (stormFree_singleton (by decide))
  · exact stormFree_onlyIf _ _ (stormFree_singleton (by decide))
  · exact stormFree_onlyIf _ _ (stormFree_singleton (by decide))
  · exact stormFree_onlyIf _ _
      (stormFree_singleton (isStorm_append_false " load-interval " _ (by decide)))
  · exact stormFree_onlyIf _ _ (stormFree_singleton_ite _ _ _ (by decide) (by decide))

end TrunkTemplate

namespace AccessTemplate

theorem acc_gen_eq_blocks (t : AccessTemplate) (h : t.interfaces ≠ []) :
    t.generate_config =
      t.vlanBlock ++ t.headerBlock ++ t.voiceBlock ++ t.pvlanBlock
      ++ t.stpBlock ++ t.qosBlock ++ t.authBlock
      ++ onlyIf t.mab [" mab"]
      ++ onlyIf t.webauth
          [if t.webauth_local then " web-auth" else " web-auth authentication-list default"]
      ++ t.poeBlock ++ t.stormBlock
      ++ ifStr t.storm_control_action (fun a => " storm-control action " ++ a)
      ++ t.physBlock ++ t.flowBlock ++ t.cdpLldpBlock
      ++ onlyIf (t.load_interval ≠ 300) [" load-interval " ++ toString t.load_interval]
      ++ t.udldBlock ++ t.errdisableBlock ++ t.snoopBlock ++ t.ipv6Block
      ++ t.portSecBlock
      ++ [" exit"] := by
  simp [generate_config, h]

theorem acc_filter_stormBlock (t : AccessTemplate) :
    t.stormBlock.filter isStormLevelLine = t.stormBlock := by
  apply List.filter_eq_self.mpr
  intro l hl
  unfold stormBlock at hl
  simp only [List.mem_append, Option.mem_toList, Option.mem_def] at hl
  rcases hl with (hb | hm) | hu
  · obtain ⟨rest, hrest⟩ := accFmt_shape t _ _ _ _ hb
    rw [hrest]
    exact isStorm_of_prefix_form "broadcast" (by simp) rest
  · obtain ⟨rest, hrest⟩ := accFmt_shape t _ _ _ _ hm
    rw [hrest]
    exact isStorm_of_prefix_form "multicast" (by simp) rest
  · obtain ⟨rest, hrest⟩ := accFmt_shape t _ _ _ _ hu
    rw [hrest]
    exact isStorm_of_prefix_form "unknown-unicast" (by simp) rest

theorem acc_cnt_self (t : AccessTemplate) (c : String) (mn mx : Option String) :
    (t._fmt_storm_line c mn mx).toList.countP (fun l => isStormLevelLineFor c l)
      = if mn.isSome then 1 else 0 := by
  rcases hf : t._fmt_storm_line c mn mx with _ | l
  · have := accFmt_isSome t c mn mx
    rw [hf] at this
    simp [← this]
  · have hs := accFmt_isSome t c mn mx
    rw [hf] at hs
    obtain ⟨rest, hrest⟩ := accFmt_shape t c mn mx l hf
    simp only [Option.toList_some, List.countP_singleton, hrest]
    rw [isFor_of_prefix_form c rest]
    simp [← hs]

theorem acc_cnt_other (t : AccessTemplate) (c1 c2 : String) (mn mx : Option String)
    (h1 : ¬ stormPrefix c2 <+: (" storm-control " ++ c1 ++ " level ").data)
    (h2 : ¬ (" storm-control " ++ c1 ++ " level ").data <+: stormPrefix c2) :
    (t._fmt_storm_line c1 mn mx).toList.countP
      (fun l => isStormLevelLineFor c2 l) = 0 := by
  rcases hf : t._fmt_storm_line c1 mn mx with _ | l
  · rfl
  · obtain ⟨rest, hrest⟩ := accFmt_shape t c1 mn mx l hf
    simp only [Option.toList_some, List.countP_singleton, hrest]
    rw [isFor_false_of_other_class c1 c2 rest h1 h2]
    rfl

theorem acc_sf_misc (t : AccessTemplate) :
    StormFree (onlyIf t.mab [" mab"])
    ∧ StormFree (onlyIf t.webauth
        [if t.webauth_local then " web-auth" else " web-auth authentication-list default"])
    ∧ StormFree (ifStr t.storm_control_action (fun a => " storm-control action " ++ a))
    ∧ StormFree (onlyIf (t.load_interval ≠ 300) [" load-interval " ++ toString t.load_interval])
    ∧ StormFree ([" exit"]) := by
  refine ⟨?_, ?_, ?_, ?_, ?_⟩
  · exact stormFree_onlyIf _ _ (stormFree_singleton (by decide))
  · exact stormFree_onlyIf _ _ (stormFree_singleton_ite _ _ _ (by decide) (by decide))
  · exact stormFree_ifStr _ _
      (fun a => isStorm_append_false " storm-control action " a (by decide))
  · exact stormFree_onlyIf _ _
      (stormFree_singleton (isStorm_append_false " load-interval " _ (by decide)))
  · exact stormFree_singleton (by decide)

theorem acc_storm_filter (t : AccessTemplate) (h : t.interfaces ≠ []) :
    t.generate_config.filter isStormLevelLine = t.stormBlock := by
  obtain ⟨hmab, hweb, hact, hload, hexit⟩ := acc_sf_misc t
  rw [acc_gen_eq_blocks t h]
  simp only [List.filter_append]
  rw [filter_storm_eq_nil (sf_vlanBlock t), filter_storm_eq_nil (sf_headerBlock t),
    filter_storm_eq_nil (sf_voiceBlock t), filter_storm_eq_nil (sf_pvlanBlock t),
    filter_storm_eq_nil (sf_stpBlock t), filter_storm_eq_nil (sf_qosBlock t),
    filter_storm_eq_nil (sf_authBlock t), filter_storm_eq_nil hmab,
    filter_storm_eq_nil hweb, filter_storm_eq_nil (sf_poeBlock t),
    filter_storm_eq_nil hact, filter_storm_eq_nil (sf_physBlock t),
    filter_storm_eq_nil (sf_flowBlock t), filter_storm_eq_nil (sf_cdpLldpBlock t),
    filter_storm_eq_nil hload, filter_storm_eq_nil (sf_udldBlock t),
    filter_storm_eq_nil (sf_errdisableBlock t), filter_storm_eq_nil (sf_snoopBlock t),
    filter_storm_eq_nil (sf_ipv6Block t), filter_storm_eq_nil (sf_portSecBlock t),
    filter_storm_eq_nil hexit, acc_filter_stormBlock t]
  simp

theorem acc_storm_countP (t : AccessTemplate) (h : t.interfaces ≠ [])
    (c : String) (hc : c ∈ ["broadcast", "multicast", "unknown-unicast"]) :
    t.generate_config.countP (fun l => isStormLevelLineFor c l)
      = t.stormBlock.countP (fun l => isStormLevelLineFor c l) := by
  obtain ⟨hmab, hweb, hact, hload, hexit⟩ := acc_sf_misc t
  rw [acc_gen_eq_blocks t h]
  simp only [List.countP_append]
  rw [countP_storm_eq_zero c hc (sf_vlanBlock t),
    countP_storm_eq_zero c hc (sf_headerBlock t),
    countP_storm_eq_zero c hc (sf_voiceBlock t),
    countP_storm_eq_zero c hc (sf_pvlanBlock t),
    countP_storm_eq_zero c hc (sf_stpBlock t),
    countP_storm_eq_zero c hc (sf_qosBlock t),
    countP_storm_eq_zero c hc (sf_authBlock t),
    countP_storm_eq_zero c hc hmab, countP_storm_eq_zero c hc hweb,
    countP_storm_eq_zero c hc (sf_poeBlock t), countP_storm_eq_zero c hc hact,
    countP_storm_eq_zero c hc (sf_physBlock t),
    countP_storm_eq_zero c hc (sf_flowBlock t),
    countP_storm_eq_zero c hc (sf_cdpLldpBlock t),
    countP_storm_eq_zero c hc hload, countP_storm_eq_zero c hc (sf_udldBlock t),
    countP_storm_eq_zero c hc (sf_errdisableBlock t),
    countP_storm_eq_zero c hc (sf_snoopBlock t),
    countP_storm_eq_zero c hc (sf_ipv6Block t),
    countP_storm_eq_zero c hc (sf_portSecBlock t),
    countP_storm_eq_zero c hc hexit]
  omega

theorem acc_stormBlock_endsPps (t : AccessTemplate)
    (hb1 : NumOpt t.storm_control_broadcast_min = true)
    (hb2 : NumOpt t.storm_control_broadcast_max = true)
    (hm1 : NumOpt t.storm_control_multicast_min = true)
    (hm2 : NumOpt t.storm_control_multicast_max = true)
    (hu1 : NumOpt t.storm_control_unknown_unicast_min = true)
    (hu2 : NumOpt t.storm_control_unknown_unicast_max = true) :
    ∀ l ∈ t.stormBlock, endsPps l = t.storm_control_unit_pps := by
  intro l hl
  unfold stormBlock at hl
  simp only [List.mem_append, Option.mem_toList, Option.mem_def] at hl
  rcases hl with (hb | hm) | hu
  · exact accFmt_endsPps t _ _ _ l hb1 hb2 hb
  · exact accFmt_endsPps t _ _ _ l hm1 hm2 hm
  · exact accFmt_endsPps t _ _ _ l hu1 hu2 hu

end AccessTemplate

namespace TrunkTemplate

theorem trk_gen_eq_blocks (t : TrunkTemplate) (h : t.interfaces ≠ []) :
    t.generate_config =
      t.headBlock ++ t.stpBlock ++ t.secBlock ++ t.qosBlock
      ++ t.stormBlock
      ++ ifStr t.storm_control_action (fun a => " storm-control action " ++ a)
      ++ t.physBlock ++ t.errBlock ++ t.channelBlock ++ t.tailBlock
      ++ [" exit"] := by
  simp [generate_config, h]

theorem trk_filter_stormBlock (t : TrunkTemplate) :
    t.stormBlock.filter isStormLevelLine = t.stormBlock := by
  apply List.filter_eq_self.mpr
  intro l hl
  unfold stormBlock at hl
  simp only [List.mem_append, Option.mem_toList, Option.mem_def] at hl
  rcases hl with (hb | hm) | hu
  · obtain ⟨rest, hrest⟩ := trkFmt_shape t _ _ _ _ hb
    rw [hrest]
    exact isStorm_of_prefix_form "broadcast" (by simp) rest
  · obtain ⟨rest, hrest⟩ := trkFmt_shape t _ _ _ _ hm
    rw [hrest]
    exact isStorm_of_prefix_form "multicast" (by simp) rest
  · obtain ⟨rest, hrest⟩ := trkFmt_shape t _ _ _ _ hu
    rw [hrest]
    exact isStorm_of_prefix_form "unknown-unicast" (by simp) rest

theorem trk_cnt_self (t : TrunkTemplate) (c : String) (mn mx : Option String) :
    (t._fmt_storm_line c mn mx).toList.countP (fun l => isStormLevelLineFor c l)
      = if mn.isSome then 1 else 0 := by
  rcases hf : t._fmt_storm_line c mn mx with _ | l
  · have := trkFmt_isSome t c mn mx
    rw [hf] at this
    simp [← this]
  · have hs := trkFmt_isSome t c mn mx
    rw [hf] at hs
    obtain ⟨rest, hrest⟩ := trkFmt_shape t c mn mx l hf
    simp only [Option.toList_some, List.countP_singleton, hrest]
    rw [isFor_of_prefix_form c rest]
    simp [← hs]

theorem trk_cnt_other (t : TrunkTemplate) (c1 c2 : String) (mn mx : Option String)
    (h1 : ¬ stormPrefix c2 <+: (" storm-control " ++ c1 ++ " level ").data)
    (h2 : ¬ (" storm-control " ++ c1 ++ " level ").data <+: stormPrefix c2) :
    (t._fmt_storm_line c1 mn mx).toList.countP
      (fun l => isStormLevelLineFor c2 l) = 0 := by
  rcases hf : t._fmt_storm_line c1 mn mx with _ | l
  · rfl
  · obtain ⟨rest, hrest⟩ := trkFmt_shape t c1 mn mx l hf
    simp only [Option.toList_some, List.countP_singleton, hrest]
    rw [isFor_false_of_other_class c1 c2 rest h1 h2]
    rfl

theorem trk_sf_misc (t : TrunkTemplate) :
    StormFree (ifStr t.storm_control_action (fun a => " storm-control action " ++ a))
    ∧ StormFree ([" exit"]) := by
  constructor
  · exact stormFree_ifStr _ _
      (fun a => isStorm_append_false " storm-control action " a (by decide))
  · exact stormFree_singleton (by decide)

theorem trk_storm_filter (t : TrunkTemplate) (h : t.interfaces ≠ []) :
    t.generate_config.filter isStormLevelLine = t.stormBlock := by
  obtain ⟨hact, hexit⟩ := trk_sf_misc t
  rw [trk_gen_eq_blocks t h]
  simp only [List.filter_append]
  rw [filter_storm_eq_nil (sf_headBlock t), filter_storm_eq_nil (trk_sf_stpBlock t),
    filter_storm_eq_nil (sf_secBlock t), filter_storm_eq_nil (trk_sf_qosBlock t),
    filter_storm_eq_nil hact, filter_storm_eq_nil (trk_sf_physBlock t),
    filter_storm_eq_nil (sf_errBlock t), filter_storm_eq_nil (sf_channelBlock t),
    filter_storm_eq_nil (sf_tailBlock t), filter_storm_eq_nil hexit,
    trk_filter_stormBlock t]
  simp

theorem trk_storm_countP (t : TrunkTemplate) (h : t.interfaces ≠ [])
    (c : String) (hc : c ∈ ["broadcast", "multicast", "unknown-unicast"]) :
    t.generate_config.countP (fun l => isStormLevelLineFor c l)
      = t.stormBlock.countP (fun l => isStormLevelLineFor c l) := by
  obtain ⟨hact, hexit⟩ := trk_sf_misc t
  rw [trk_gen_eq_blocks t h]
  simp only [List.countP_append]
  rw [countP_storm_eq_zero c hc (sf_headBlock t),
    countP_storm_eq_zero c hc (trk_sf_stpBlock t),
    countP_storm_eq_zero c hc (sf_secBlock t),
    countP_storm_eq_zero c hc (trk_sf_qosBlock t),
    countP_storm_eq_zero c hc hact,
    countP_storm_eq_zero c hc (trk_sf_physBlock t),
    countP_storm_eq_zero c hc (sf_errBlock t),
    countP_storm_eq_zero c hc (sf_channelBlock t),
    countP_storm_eq_zero c hc (sf_tailBlock t),
    countP_storm_eq_zero c hc hexit]
  omega

theorem trk_stormBlock_endsPps (t : TrunkTemplate)
    (hb1 : NumOpt t.storm_control_broadcast_min = true)
    (hb2 : NumOpt t.storm_control_broadcast_max = true)
    (hm1 : NumOpt t.storm_control_multicast_min = true)
    (hm2 : NumOpt t.storm_control_multicast_max = true)
    (hu1 : NumOpt t.storm_control_unknown_unicast_min = true)
    (hu2 : NumOpt t.storm_control_unknown_unicast_max = true) :
    ∀ l ∈ t.stormBlock, endsPps l = t.storm_control_unit_pps := by
  intro l hl
  unfold stormBlock at hl
  simp only [List.mem_append, Option.mem_toList, Option.mem_def] at hl
  rcases hl with (hb | hm) | hu
  · exact trkFmt_endsPps t _ _ _ l hb1 hb2 hb
  · exact trkFmt_endsPps t _ _ _ l hm1 hm2 hm
  · exact trkFmt_endsPps t _ _ _ l hu1 hu2 hu

end TrunkTemplate

theorem access_stormBlock_counts (t : AccessTemplate) :
    t.stormBlock.countP (fun l => isStormLevelLineFor "broadcast" l)
        = (if t.storm_control_broadcast_min.isSome then 1 else 0)
    ∧ t.stormBlock.countP (fun l => isStormLevelLineFor "multicast" l)
        = (if t.storm_control_multicast_min.isSome then 1 else 0)
    ∧ t.stormBlock.countP (fun l => isStormLevelLineFor "unknown-unicast" l)
        = (if t.storm_control_unknown_unicast_min.isSome then 1 else 0) := by
  unfold AccessTemplate.stormBlock
  simp only [List.countP_append]
  refine ⟨?_, ?_, ?_⟩
  · rw [AccessTemplate.acc_cnt_self,
      AccessTemplate.acc_cnt_other t "multicast" "broadcast" _ _ (by decide) (by decide),
      AccessTemplate.acc_cnt_other t "unknown-unicast" "broadcast" _ _ (by decide) (by decide)]
    omega
  · rw [AccessTemplate.acc_cnt_self,
      AccessTemplate.acc_cnt_other t "broadcast" "multicast" _ _ (by decide) (by decide),
      AccessTemplate.acc_cnt_other t "unknown-unicast" "multicast" _ _ (by decide) (by decide)]
    omega
  · rw [AccessTemplate.acc_cnt_self,
      AccessTemplate.acc_cnt_other t "broadcast" "unknown-unicast" _ _ (by decide) (by decide),
      AccessTemplate.acc_cnt_other t "multicast" "unknown-unicast" _ _ (by decide) (by decide)]
    omega

theorem trunk_stormBlock_counts (t : TrunkTemplate) :
    t.stormBlock.countP (fun l => isStormLevelLineFor "broadcast" l)
        = (if t.storm_control_broadcast_min.isSome then 1 else 0)
    ∧ t.stormBlock.countP (fun l => isStormLevelLineFor "multicast" l)
        = (if t.storm_control_multicast_min.isSome then 1 else 0)
    ∧ t.stormBlock.countP (fun l => isStormLevelLineFor "unknown-unicast" l)
        = (if t.storm_control_unknown_unicast_min.isSome then 1 else 0) := by
  unfold TrunkTemplate.stormBlock
  simp only [List.countP_append]
  refine ⟨?_, ?_, ?_⟩
  · rw [TrunkTemplate.trk_cnt_self,
      TrunkTemplate.trk_cnt_other t "multicast" "broadcast" _ _ (by decide) (by decide),
      TrunkTemplate.trk_cnt_other t "unknown-unicast" "broadcast" _ _ (by decide) (by decide)]
    omega
  · rw [TrunkTemplate.trk_cnt_self,
      TrunkTemplate.trk_cnt_other t "broadcast" "multicast" _ _ (by decide) (by decide),
      TrunkTemplate.trk_cnt_other t "unknown-unicast" "multicast" _ _ (by decide) (by decide)]
    omega
  · rw [TrunkTemplate.trk_cnt_self,
      TrunkTemplate.trk_cnt_other t "broadcast" "unknown-unicast" _ _ (by decide) (by decide),
      TrunkTemplate.trk_cnt_other t "multicast" "unknown-unicast" _ _ (by decide) (by decide)]
    omega

/-- C5: for every access and trunk template with a non-empty interfaces list
(whose threshold fields hold decimal float renderings, as the Python `float`
type guarantees), the rendered output's storm-control level lines are exactly
the storm block — one line per traffic class whose minimum threshold is set,
in broadcast, multicast, unknown-unicast order — each class's line counted
exactly once, and every such line ends in `pps` if and only if
`storm_control_unit_pps` is set. -/
theorem C5_storm_lines (a : AccessTemplate) (tr : TrunkTemplate)
    (ha : a.interfaces ≠ []) (htr : tr.interfaces ≠ [])
    (hab1 : NumOpt a.storm_control_broadcast_min = true)
    (hab2 : NumOpt a.storm_control_broadcast_max = true)
    (ham1 : NumOpt a.storm_control_multicast_min = true)
    (ham2 : NumOpt a.storm_control_multicast_max = true)
    (hau1 : NumOpt a.storm_control_unknown_unicast_min = true)
    (hau2 : NumOpt a.storm_control_unknown_unicast_max = true)
    (htb1 : NumOpt tr.storm_control_broadcast_min = true)
    (htb2 : NumOpt tr.storm_control_broadcast_max = true)
    (htm1 : NumOpt tr.storm_control_multicast_min = true)
    (htm2 : NumOpt tr.storm_control_multicast_max = true)
    (htu1 : NumOpt tr.storm_control_unknown_unicast_min = true)
    (htu2 : NumOpt tr.storm_control_unknown_unicast_max = true) :
    (a.generate_config.filter isStormLevelLine = a.stormBlock
      ∧ a.generate_config.countP (fun l => isStormLevelLineFor "broadcast" l)
          = (if a.storm_control_broadcast_min.isSome then 1 else 0)
      ∧ a.generate_config.countP (fun l => isStormLevelLineFor "multicast" l)
          = (if a.storm_control_multicast_min.isSome then 1 else 0)
      ∧ a.generate_config.countP (fun l => isStormLevelLineFor "unknown-unicast" l)
          = (if a.storm_control_unknown_unicast_min.isSome then 1 else 0)
      ∧ ∀ l ∈ a.generate_config, isStormLevelLine l = true →
          endsPps l = a.storm_control_unit_pps)
    ∧ (tr.generate_config.filter isStormLevelLine = tr.stormBlock
      ∧ tr.generate_config.countP (fun l => isStormLevelLineFor "broadcast" l)
          = (if tr.storm_control_broadcast_min.isSome then 1 else 0)
      ∧ tr.generate_config.countP (fun l => isStormLevelLineFor "multicast" l)
          = (if tr.storm_control_multicast_min.isSome then 1 else 0)
      ∧ tr.generate_config.countP (fun l => isStormLevelLineFor "unknown-unicast" l)
          = (if tr.storm_control_unknown_unicast_min.isSome then 1 else 0)
      ∧ ∀ l ∈ tr.generate_config, isStormLevelLine l = true →
          endsPps l = tr.storm_control_unit_pps) := by
  constructor
  · refine ⟨AccessTemplate.acc_storm_filter a ha, ?_, ?_, ?_, ?_⟩
    · rw [AccessTemplate.acc_storm_countP a ha "broadcast" (by simp)]
      exact (access_stormBlock_counts a).1
    · rw [AccessTemplate.acc_storm_countP a ha "multicast" (by simp)]
      exact (access_stormBlock_counts a).2.1
    · rw [AccessTemplate.acc_storm_countP a ha "unknown-unicast" (by simp)]
      exact (access_stormBlock_counts a).2.2
    · intro l hl hst
      have hmem : l ∈ a.generate_config.filter isStormLevelLine :=
        List.mem_filter.mpr ⟨hl, hst⟩
      rw [AccessTemplate.acc_storm_filter a ha] at hmem
      exact AccessTemplate.acc_stormBlock_endsPps a hab1 hab2 ham1 ham2 hau1 hau2 l hmem
  · refine ⟨TrunkTemplate.trk_storm_filter tr htr, ?_, ?_, ?_, ?_⟩
    · rw [TrunkTemplate.trk_storm_countP tr htr "broadcast" (by simp)]
      exact (trunk_stormBlock_counts tr).1
    · rw [TrunkTemplate.trk_storm_countP tr htr "multicast" (by simp)]
      exact (trunk_stormBlock_counts tr).2.1
    · rw [TrunkTemplate.trk_storm_countP tr htr "unknown-unicast" (by simp)]
      exact (trunk_stormBlock_counts tr).2.2
    · intro l hl hst
      have hmem : l ∈ tr.generate_config.filter isStormLevelLine :=
        List.mem_filter.mpr ⟨hl, hst⟩
      rw [TrunkTemplate.trk_storm_filter tr htr] at hmem
      exact TrunkTemplate.trk_stormBlock_endsPps tr htb1 htb2 htm1 htm2 htu1 htu2 l hmem

/-- Witness for C5 at concrete templates with thresholds set. -/
theorem C5_storm_lines_witness :
    (AccessTemplate.generate_config accessStormEx).filter isStormLevelLine
        = accessStormEx.stormBlock
    ∧ (TrunkTemplate.generate_config trunkStormEx).filter isStormLevelLine
        = trunkStormEx.stormBlock := by
  have h := C5_storm_lines accessStormEx trunkStormEx (by decide) (by decide)
    (by decide) (by decide) (by decide) (by decide) (by decide) (by decide)
    (by decide) (by decide) (by decide) (by decide) (by decide) (by decide)
  exact ⟨h.1.1, h.2.1⟩

/-- C8: an interface-scoped template (Access or Trunk) with an empty
interfaces list renders the empty sequence.  `generate_config` is a pure
function of the instance in this embedding, so repeated calls return the same
empty sequence and cannot modify the instance. -/
theorem C8_empty_interfaces (a : AccessTemplate) (t : TrunkTemplate)
    (ha : a.interfaces = []) (ht : t.interfaces = []) :
    a.generate_config = [] ∧ t.generate_config = [] := by
  constructor
  · simp [AccessTemplate.generate_config, ha]
  · simp [TrunkTemplate.generate_config, ht]

/-- Witness for C8 at the default-constructed templates. -/
theorem C8_empty_interfaces_witness :
    AccessTemplate.generate_config {} = []
      ∧ TrunkTemplate.generate_config {} = [] :=
  C8_empty_interfaces {} {} rfl rfl

/-- C10: a trunk template with interfaces but an empty allowed-VLAN list emits
the allowed-VLAN line for all VLANs, ` switchport trunk allowed vlan 1-4094`
(the empty list silently defaults to permitting every VLAN). -/
theorem C10_empty_allowed_vlans (t : TrunkTemplate)
    (h1 : t.interfaces ≠ []) (h2 : t.allowed_vlans = []) :
    " switchport trunk allowed vlan 1-4094" ∈ t.generate_config := by
  unfold TrunkTemplate.generate_config TrunkTemplate.headBlock
  rw [if_neg h1, h2]
  simp [TrunkTemplate._format_vlan_range]

/-- Witness for C10 at a one-interface trunk template. -/
theorem C10_empty_allowed_vlans_witness :
    " switchport trunk allowed vlan 1-4094" ∈
      TrunkTemplate.generate_config { interfaces := ["Gig1/0/1"] } :=
  C10_empty_allowed_vlans { interfaces := ["Gig1/0/1"] } (by decide) rfl

/-- C6: `assign` on an interface in the manager's domain rebinds it and
returns true; on an unknown interface it returns false and leaves the whole
mapping unchanged (no error is modelled — the function is total). -/
theorem C6_assign_contract (m : InterfaceAssignmentManager) (i tpl : String) :
    (m.hasInterface i = true →
      (m.assign i tpl).1 = true ∧ ((m.assign i tpl).2).get_template i = tpl)
    ∧ (m.hasInterface i = false →
      (m.assign i tpl).1 = false ∧ (m.assign i tpl).2 = m) := by
  constructor
  · intro h
    exact ⟨InterfaceAssignmentManager.assign_fst m i tpl h,
      InterfaceAssignmentManager.get_template_assign_self m i tpl h⟩
  · intro h
    constructor <;> simp [InterfaceAssignmentManager.assign, h]

/-- Witness for C6: a known interface is rebound (true), an unknown one is a
no-op (false). -/
theorem C6_assign_contract_witness :
    ((InterfaceAssignmentManager.init ["Gi0/1", "Gi0/2"] "vlan").assign "Gi0/1" "TRUNK_A").1 = true
    ∧ (((InterfaceAssignmentManager.init ["Gi0/1", "Gi0/2"] "vlan").assign "Gi0/1" "TRUNK_A").2).get_template "Gi0/1" = "TRUNK_A"
    ∧ ((InterfaceAssignmentManager.init ["Gi0/1", "Gi0/2"] "vlan").assign "Gi0/9" "TRUNK_A").1 = false
    ∧ ((InterfaceAssignmentManager.init ["Gi0/1", "Gi0/2"] "vlan").assign "Gi0/9" "TRUNK_A").2
        = InterfaceAssignmentManager.init ["Gi0/1", "Gi0/2"] "vlan" := by
  have h1 := (C6_assign_contract
    (InterfaceAssignmentManager.init ["Gi0/1", "Gi0/2"] "vlan") "Gi0/1" "TRUNK_A").1 (by decide)
  have h2 := (C6_assign_contract
    (InterfaceAssignmentManager.init ["Gi0/1", "Gi0/2"] "vlan") "Gi0/9" "TRUNK_A").2 (by decide)
  exact ⟨h1.1, h1.2, h2.1, h2.2⟩

/-- C7: after any sequence of `assign` calls on a manager built from an
interface list, the domain of the mapping is still exactly the
construction-time interface list, and every construction-time interface still
has a binding. -/
theorem C7_total_function (interfaces : List String) (d : String)
    (ops : List (String × String)) (i : String) (h : i ∈ interfaces) :
    ((InterfaceAssignmentManager.init interfaces d).applyAssigns ops).keys = interfaces
    ∧ ((InterfaceAssignmentManager.init interfaces d).applyAssigns ops).hasInterface i = true := by
  have hk : ((InterfaceAssignmentManager.init interfaces d).applyAssigns ops).keys = interfaces := by
    rw [InterfaceAssignmentManager.keys_applyAssigns,
      InterfaceAssignmentManager.keys_init]
  refine ⟨hk, ?_⟩
  rw [InterfaceAssignmentManager.hasInterface_iff_mem_keys, hk]
  exact h

/-- Witness for C7 after two assignments (one of them to an unknown
interface). -/
theorem C7_total_function_witness :
    ((InterfaceAssignmentManager.init ["Gi0/1", "Gi0/2"] "vlan").applyAssigns
        [("Gi0/1", "TRUNK_A"), ("Gi0/9", "X")]).keys = ["Gi0/1", "Gi0/2"]
    ∧ ((InterfaceAssignmentManager.init ["Gi0/1", "Gi0/2"] "vlan").applyAssigns
        [("Gi0/1", "TRUNK_A"), ("Gi0/9", "X")]).hasInterface "Gi0/2" = true :=
  C7_total_function ["Gi0/1", "Gi0/2"] "vlan"
    [("Gi0/1", "TRUNK_A"), ("Gi0/9", "X")] "Gi0/2" (by decide)

/-- C9: assigning an interface to the template it is already bound to returns
true and leaves `get_template` unchanged at every interface. -/
theorem C9_assign_idempotent (m : InterfaceAssignmentManager) (i : String)
    (h : m.hasInterface i = true) (j : String) :
    (m.assign i (m.get_template i)).1 = true
    ∧ ((m.assign i (m.get_template i)).2).get_template j = m.get_template j := by
  refine ⟨InterfaceAssignmentManager.assign_fst m i (m.get_template i) h, ?_⟩
  by_cases hj : j = i
  · subst hj
    exact InterfaceAssignmentManager.get_template_assign_self m j
      (m.get_template j) h
  · simp only [InterfaceAssignmentManager.assign, h, if_true]
    generalize m.get_template i = v
    simp only [InterfaceAssignmentManager.get_template]
    rw [InterfaceAssignmentManager.find?_map_update_ne m.interface_map i v j hj]

/-- Witness for C9 on a two-interface manager. -/
theorem C9_assign_idempotent_witness :
    ((InterfaceAssignmentManager.init ["Gi0/1", "Gi0/2"] "vlan").assign "Gi0/1"
      ((InterfaceAssignmentManager.init ["Gi0/1", "Gi0/2"] "vlan").get_template "Gi0/1")).1 = true
    ∧ (((InterfaceAssignmentManager.init ["Gi0/1", "Gi0/2"] "vlan").assign "Gi0/1"
      ((InterfaceAssignmentManager.init ["Gi0/1", "Gi0/2"] "vlan").get_template "Gi0/1")).2).get_template "Gi0/1"
        = (InterfaceAssignmentManager.init ["Gi0/1", "Gi0/2"] "vlan").get_template "Gi0/1" :=
  C9_assign_idempotent (InterfaceAssignmentManager.init ["Gi0/1", "Gi0/2"] "vlan")
    "Gi0/1" (by decide) "Gi0/1"
